import Mathlib

/-!
Verification development for the brain-api repository.

The definitions below are a shallow embedding of the server's data model
and operations.  Database tables become lists of rows, SQL statements
become list transformations, a transaction that throws becomes an
`Except` value whose error branch returns the unmodified state (ROLLBACK),
and JavaScript numbers become `Int`/`Nat` with the source's arithmetic
made explicit.  Enumerated string columns are kept as `String` exactly as
the JavaScript compares them.  Entity ids are modelled as `Nat`.
-/

-- ── JS arithmetic helpers ──────────────────────────────────────────────

/-- Milliseconds in one UTC day, the constant 86_400_000 of the source. -/
def msPerDay : Int := 86400000

/-- JavaScript `Math.ceil(a / b)` for integers `a` and positive integer `b`. -/
def jsMathCeilDiv (a b : Int) : Int := -((-a).fdiv b)

/-- Postgres `ROUND(a::numeric / b)` for integer `a` and positive integer `b`:
rounding half away from zero. -/
def pgRoundDiv (a b : Int) : Int :=
  if 0 ≤ a then (2 * a + b).fdiv (2 * b) else -((2 * (-a) + b).fdiv (2 * b))

/-- JavaScript falsiness of an optional integer field: `undefined` and `0`
are falsy (`!overall_rating`). -/
def jsFalsyInt : Option Int → Bool
  | none => true
  | some v => v == 0

/-- JavaScript falsiness of an optional string field: `undefined` and the
empty string are falsy (`!current_league`). -/
def jsFalsyStr : Option String → Bool
  | none => true
  | some s => s == ""

-- ── DATA MODEL (rows of the Postgres tables) ───────────────────────────

/-- A row of the `players` table. -/
structure Player where
  id : Nat
  user_id : Nat
  display_name : Option String
  overall_rating : Int
  current_league : String
  career_status : String
  career_started_at : Int
deriving Repr, DecidableEq

/-- A row of the `career_completions` table (UNIQUE on `player_id`). -/
structure CareerCompletion where
  player_id : Nat
  user_id : Nat
  days_to_premier : Int
deriving Repr, DecidableEq

/-- A row of the `coach_stats` table. -/
structure CoachStats where
  user_id : Nat
  display_name : Option String
  completions_count : Int
  total_days_sum : Int
  best_days_to_premier : Option Int
  avg_days_to_premier : Option Int
deriving Repr, DecidableEq

/-- A row of the `coaching_squads` table. -/
structure CoachingSquad where
  id : Nat
  name : String
  privacy : String
  leader_user_id : Nat
  total_points : Int
  unspent_points : Int
  level : Int
deriving Repr, DecidableEq

/-- A row of the `coaching_squad_members` table (unique per squad and user). -/
structure SquadMember where
  squad_id : Nat
  user_id : Nat
  role : String
  points_contributed : Int
  status : String
deriving Repr, DecidableEq

/-- A row of the `coaching_squad_join_requests` table. -/
structure SquadJoinRequest where
  id : Nat
  squad_id : Nat
  user_id : Nat
  status : String
  resolved_by : Option Nat
deriving Repr, DecidableEq

/-- A row of the `squad_facilities` table (unique per squad and type). -/
structure SquadFacility where
  squad_id : Nat
  facility_type : String
  level : Int
deriving Repr, DecidableEq

/-- A row of the append-only `squad_point_events` table. -/
structure SquadPointEvent where
  squad_id : Nat
  user_id : Nat
  delta_points : Int
  reason : String
deriving Repr, DecidableEq

/-- A row of the append-only `squad_spend_transactions` table. -/
structure SquadSpendTransaction where
  squad_id : Nat
  user_id : Nat
  points_spent : Int
  facility_type : String
  from_level : Int
  to_level : Int
deriving Repr, DecidableEq

/-- The `sweep_state` singleton (row id = 1). -/
structure SweepState where
  last_sweep_utc_day : Option Nat
  last_sweep_at : Option Int
  run_count : Nat
deriving Repr, DecidableEq

/-- The whole relational store of the brain API. -/
structure Db where
  players : List Player
  career_completions : List CareerCompletion
  coach_stats : List CoachStats
  squads : List CoachingSquad
  squad_members : List SquadMember
  squad_join_requests : List SquadJoinRequest
  squad_facilities : List SquadFacility
  squad_point_events : List SquadPointEvent
  squad_spend_transactions : List SquadSpendTransaction
  sweep_state : SweepState
deriving Repr, DecidableEq

-- ── data-store.js constants ────────────────────────────────────────────

/-- `PROMOTION_THRESHOLDS` of data-store.js: the rating needed to leave a
league during a sweep; `none` for an unknown league string (JS
`PROMOTION_THRESHOLDS[league]` is `undefined` there). -/
def PROMOTION_THRESHOLDS (league : String) : Option Int :=
  if league == "league_two" then some 70
  else if league == "league_one" then some 78
  else if league == "championship" then some 86
  else none

/-- `LEAGUE_NEXT` of sweep.js. -/
def LEAGUE_NEXT (league : String) : Option String :=
  if league == "league_two" then some "league_one"
  else if league == "league_one" then some "championship"
  else none

/-- `FACILITY_BASE_COSTS` of data-store.js. -/
def FACILITY_BASE_COSTS (t : String) : Option Int :=
  if t == "training_equipment" then some 5
  else if t == "spa" then some 8
  else if t == "analysis_room" then some 6
  else if t == "medical_center" then some 7
  else none

/-- `FACILITY_TYPES` of data-store.js (the keys of the cost table). -/
def FACILITY_TYPES : List String :=
  ["training_equipment", "spa", "analysis_room", "medical_center"]

/-- `upgradeCost` of data-store.js: cost to go from `currentLevel` to the
next level; `none` models the throw on an unknown facility type. -/
def upgradeCost (facilityType : String) (currentLevel : Int) : Option Int :=
  (FACILITY_BASE_COSTS facilityType).map (fun base => base * (currentLevel + 1))

-- ── PLAYER CAREERS (src/unnamed/part_003, the database backend) ────────

/-- The `days_to_premier` computation of the database-backed
`completePlayerCareer`: `Math.ceil((nowMs - startedMs) / 86400000) || 1`.
The `|| 1` replaces only a zero (or `-0`) result. -/
def daysToPremierDb (nowMs startedMs : Int) : Int :=
  let c := jsMathCeilDiv (nowMs - startedMs) msPerDay
  if c = 0 then 1 else c

/-- Result shape of `completePlayerCareer` (the fields the claims need). -/
structure CompleteResult where
  already_completed : Bool
  days_to_premier : Option Int
deriving Repr, DecidableEq

/-- The `coach_stats` upsert of `completePlayerCareer` step 4:
`INSERT ... ON CONFLICT (user_id) DO UPDATE` incrementing the count and
sum, recomputing the rounded average, and taking
`LEAST(COALESCE(best, d), d)`. -/
def upsertCoachStats (stats : List CoachStats) (uid : Nat) (dn : Option String)
    (d : Int) : List CoachStats :=
  if stats.any (fun s => s.user_id == uid) then
    stats.map (fun s =>
      if s.user_id == uid then
        { s with
          completions_count := s.completions_count + 1
          total_days_sum := s.total_days_sum + d
          avg_days_to_premier :=
            some (pgRoundDiv (s.total_days_sum + d) (s.completions_count + 1))
          best_days_to_premier := some (min (s.best_days_to_premier.getD d) d)
          display_name := dn.orElse (fun _ => s.display_name) }
      else s)
  else
    stats ++ [{ user_id := uid, display_name := dn, completions_count := 1,
                total_days_sum := d, best_days_to_premier := some d,
                avg_days_to_premier := some d }]

/-- The check-violation error raised by the `career_completions` insert
when `days_to_premier` is not positive: the schema declares
`days_to_premier INTEGER NOT NULL CHECK (days_to_premier > 0)`
(src/unnamed/part_005), and Postgres validates the check on the proposed
row before the `ON CONFLICT` arbitration. -/
def careerDaysCheckMsg : String :=
  "new row violates check constraint career_completions_days_to_premier_check"

/-- `completePlayerCareer` of src/unnamed/part_003: one transaction that
locks the player row, bails out if already completed, marks the player
completed, inserts the `career_completions` row (`ON CONFLICT (player_id)
DO NOTHING`, returning `already_completed` when the conflict fires),
upserts `coach_stats`, and awards a squad point when the coach has an
active membership.  The insert is subject to the schema's
`CHECK (days_to_premier > 0)`, which is evaluated on the proposed row
before the conflict arbitration, so a nonpositive days value throws on
the whole active path.  An `Except.error` models a throw, which rolls the
transaction back (no state is returned with it). -/
def completePlayerCareer (nowMs : Int) (player_id : Nat) (db : Db) :
    Except String (CompleteResult × Db) :=
  match db.players.find? (fun p => p.id == player_id) with
  | none => .error ("Player not found")
  | some player =>
    if player.career_status == "completed" then
      .ok ({ already_completed := true, days_to_premier := none }, db)
    else
      let daysToPremier := daysToPremierDb nowMs player.career_started_at
      if daysToPremier ≤ 0 then .error careerDaysCheckMsg
      else
      let players1 := db.players.map (fun p =>
        if p.id == player_id then { p with career_status := "completed" } else p)
      if db.career_completions.any (fun c => c.player_id == player_id) then
        .ok ({ already_completed := true, days_to_premier := none },
             { db with players := players1 })
      else
        let completions1 := db.career_completions ++
          [{ player_id := player_id, user_id := player.user_id,
             days_to_premier := daysToPremier }]
        let stats1 :=
          upsertCoachStats db.coach_stats player.user_id player.display_name
            daysToPremier
        match db.squad_members.find?
            (fun m => m.user_id == player.user_id && m.status == "active") with
        | none =>
          .ok ({ already_completed := false, days_to_premier := some daysToPremier },
               { db with players := players1, career_completions := completions1,
                         coach_stats := stats1 })
        | some membership =>
          let squads1 := db.squads.map (fun s =>
            if s.id == membership.squad_id then
              { s with total_points := s.total_points + 1,
                       unspent_points := s.unspent_points + 1 }
            else s)
          let members1 := db.squad_members.map (fun m =>
            if m.squad_id == membership.squad_id && m.user_id == membership.user_id
            then { m with points_contributed := m.points_contributed + 1 } else m)
          let events1 := db.squad_point_events ++
            [{ squad_id := membership.squad_id, user_id := player.user_id,
               delta_points := 1, reason := "premier_completion" }]
          .ok ({ already_completed := false, days_to_premier := some daysToPremier },
               { db with players := players1, career_completions := completions1,
                         coach_stats := stats1, squads := squads1,
                         squad_members := members1, squad_point_events := events1 })

/-- `updatePlayerProgress` of src/unnamed/part_003: throws when both inputs
are JavaScript-falsy, otherwise updates the defined fields of the player
row whose `career_status` is still `active` and returns the updated row
(or `none` when no row matched). -/
def updatePlayerProgress (player_id : Nat) (overall_rating : Option Int)
    (current_league : Option String) (players : List Player) :
    Except String (Option Player × List Player) :=
  if jsFalsyInt overall_rating && jsFalsyStr current_league then
    .error ("Provide at least one of: overall_rating, current_league")
  else
    let applySets := fun (p : Player) =>
      let p1 := match overall_rating with
        | some r => { p with overall_rating := r }
        | none => p
      match current_league with
        | some l => { p1 with current_league := l }
        | none => p1
    let players1 := players.map (fun p =>
      if p.id == player_id && p.career_status == "active" then applySets p else p)
    .ok ((players.find? (fun p => p.id == player_id && p.career_status == "active")).map
           applySets,
         players1)

-- ── TRANSFER SWEEP (src/sweep.js) ──────────────────────────────────────

/-- Summary returned by `runTransferSweep` (the fields the claims need;
the promotion, completion, skip and error lists carry player ids). -/
structure SweepSummary where
  ran : Bool
  forced : Bool
  utc_day : Nat
  total_active_players : Nat
  promotions : List Nat
  completions : List Nat
  skipped : List Nat
  errors : List Nat
deriving Repr, DecidableEq

/-- Phase 3 predicate: the player's rating reaches the threshold of its
current league (`threshold !== undefined && rating >= threshold`). -/
def sweepQualifies (p : Player) : Bool :=
  match PROMOTION_THRESHOLDS p.current_league with
  | none => false
  | some t => decide (t ≤ p.overall_rating)

/-- Phase 4 of the sweep: run `completePlayerCareer` for each completion
candidate in its own transaction, collecting completions and per-player
errors without aborting the batch (an error leaves the state untouched:
the failed transaction rolled back). -/
def sweepCompletions (nowMs : Int) : List Player → Db → List Nat × List Nat × Db
  | [], db => ([], [], db)
  | p :: rest, db =>
    match completePlayerCareer nowMs p.id db with
    | .ok (r, db') =>
      let tail := sweepCompletions nowMs rest db'
      (if r.already_completed then tail.1 else p.id :: tail.1, tail.2.1, tail.2.2)
    | .error _ =>
      let tail := sweepCompletions nowMs rest db
      (tail.1, p.id :: tail.2.1, tail.2.2)

/-- Phase 5 batched `UPDATE players SET current_league = target WHERE id IN
ids AND career_status = 'active'`. -/
def batchPromote (target : String) (ids : List Nat) (players : List Player) :
    List Player :=
  players.map (fun q =>
    if ids.contains q.id && q.career_status == "active" then
      { q with current_league := target }
    else q)

/-- Phase 1 stamp: `last_sweep_utc_day = today`, `last_sweep_at = NOW()`,
`run_count + 1`, written while the advisory lock is held. -/
def sweepStamp (today : Nat) (nowMs : Int) (db : Db) : Db :=
  { db with sweep_state :=
    { last_sweep_utc_day := some today, last_sweep_at := some nowMs,
      run_count := db.sweep_state.run_count + 1 } }

/-- Phase 2 load: all players with `career_status = 'active'`.  The model
keeps the stored row order (the `ORDER BY id` of the SQL does not affect
any classification or update below). -/
def sweepActive (db : Db) : List Player :=
  db.players.filter (fun p => p.career_status == "active")

/-- Phase 3: the completion queue — qualifying championship players. -/
def sweepToComplete (active : List Player) : List Player :=
  active.filter (fun p => sweepQualifies p && p.current_league == "championship")

/-- Phase 3: the promotion queue — qualifying non-championship players. -/
def sweepToPromote (active : List Player) : List Player :=
  active.filter (fun p => sweepQualifies p && !(p.current_league == "championship"))

/-- Phase 5 grouping `byTarget`: the ids of queued players whose
`LEAGUE_NEXT` is the given target league. -/
def sweepPromotionIds (target : String) (toPromote : List Player) : List Nat :=
  (toPromote.filter (fun p => LEAGUE_NEXT p.current_league == some target)).map
    (fun p => p.id)

/-- Phases 1 (stamp) to 5 of an executing sweep.  The two batched updates
target disjoint id sets (each player was loaded in exactly one league), so
applying them in a fixed order matches the source's object-key iteration. -/
def sweepExecute (force : Bool) (today : Nat) (nowMs : Int) (db : Db) :
    SweepSummary × Db :=
  let db1 := sweepStamp today nowMs db
  let activePlayers := sweepActive db1
  let toComplete := sweepToComplete activePlayers
  let toPromote := sweepToPromote activePlayers
  let toSkip := activePlayers.filter (fun p => !(sweepQualifies p))
  let step4 := sweepCompletions nowMs toComplete db1
  let idsToLeagueOne := sweepPromotionIds "league_one" toPromote
  let idsToChampionship := sweepPromotionIds "championship" toPromote
  let players5 := batchPromote "championship" idsToChampionship
    (batchPromote "league_one" idsToLeagueOne step4.2.2.players)
  let db5 := { step4.2.2 with players := players5 }
  ({ ran := true, forced := force, utc_day := today,
     total_active_players := activePlayers.length,
     promotions := idsToLeagueOne ++ idsToChampionship,
     completions := step4.1, skipped := toSkip.map (fun p => p.id),
     errors := step4.2.1 }, db5)

/-- `runTransferSweep` of sweep.js.  The advisory lock serializes
invocations, so one invocation is a pure state transition.  Phase 1
checks the schedule and the durable `last_sweep_utc_day` guard; when both
pass (or `force` is set) the sweep stamps the state and runs phases 2 to
5 through `sweepExecute`. -/
def runTransferSweep (force : Bool) (today : Nat) (nowMs : Int) (db : Db) :
    SweepSummary × Db :=
  let isDue := today % 4 == 0
  let alreadyRan := db.sweep_state.last_sweep_utc_day == some today
  if !force && (!isDue || alreadyRan) then
    ({ ran := false, forced := force, utc_day := today, total_active_players := 0,
       promotions := [], completions := [], skipped := [], errors := [] }, db)
  else
    sweepExecute force today nowMs db

-- ── COACHING SQUADS (src/sweep.js, squads section) ─────────────────────

/-- `computeSquadLevel`: `1 + Math.floor(SUM(level) / 4)` over the squad's
facility rows. -/
def computeSquadLevel (facilities : List SquadFacility) (squadId : Nat) : Int :=
  1 + ((facilities.filter (fun f => f.squad_id == squadId)).foldl
        (fun (a : Int) (f : SquadFacility) => a + f.level) 0).fdiv 4

/-- `assertLeaderOrCoLeader` as a boolean: the user has an active
membership in the squad with role leader or co-leader. -/
def isLeaderOrCoLeader (members : List SquadMember) (userId squadId : Nat) : Bool :=
  match members.find? (fun m =>
      m.squad_id == squadId && m.user_id == userId && m.status == "active") with
  | none => false
  | some m => m.role == "leader" || m.role == "co_leader"

/-- `getUserActiveMembership`: the first active membership of the user in
any squad. -/
def getUserActiveMembership (members : List SquadMember) (userId : Nat) :
    Option SquadMember :=
  members.find? (fun m => m.user_id == userId && m.status == "active")

/-- The member upsert shared by joins and request approval:
`INSERT ... (role 'member') ON CONFLICT (squad_id, user_id) DO UPDATE SET
status = 'active'`.  A conflicting row keeps its role and
points_contributed; only `status` is written. -/
def upsertMemberActive (members : List SquadMember) (squadId userId : Nat)
    (role : String) : List SquadMember :=
  if members.any (fun m => m.squad_id == squadId && m.user_id == userId) then
    members.map (fun m =>
      if m.squad_id == squadId && m.user_id == userId then
        { m with status := "active" }
      else m)
  else
    members ++ [{ squad_id := squadId, user_id := userId, role := role,
                  points_contributed := 0, status := "active" }]

/-- `joinOpenSquad` of the squads module. -/
def joinOpenSquad (userId squadId : Nat) (db : Db) : Except String Db :=
  if (getUserActiveMembership db.squad_members userId).isSome then
    .error ("You are already in a squad")
  else
    match db.squads.find? (fun s => s.id == squadId) with
    | none => .error ("Squad not found")
    | some squad =>
      if !(squad.privacy == "open") then
        .error ("This squad is not open to direct joins")
      else
        .ok { db with squad_members :=
          upsertMemberActive db.squad_members squadId userId "member" }

/-- `resolveSquadJoinRequest`.  A throw anywhere in the transaction rolls
every write back, so each error branch returns no state. -/
def resolveSquadJoinRequest (requestId resolvingUserId : Nat) (action : String)
    (db : Db) : Except String Db :=
  if !(action == "approve" || action == "reject") then
    .error ("action must be approve or reject")
  else
    match db.squad_join_requests.find? (fun r => r.id == requestId) with
    | none => .error ("Join request not found")
    | some request =>
      if !(request.status == "pending") then
        .error ("Request has already been resolved")
      else if !(isLeaderOrCoLeader db.squad_members resolvingUserId request.squad_id)
      then
        .error ("Only squad leaders and co-leaders can perform this action")
      else if action == "approve" then
        if (getUserActiveMembership db.squad_members request.user_id).isSome then
          .error ("Applicant is already in a squad")
        else
          let members1 :=
            upsertMemberActive db.squad_members request.squad_id request.user_id
              "member"
          let requests1 := db.squad_join_requests.map (fun r =>
            if r.id == requestId then
              { r with status := "approved", resolved_by := some resolvingUserId }
            else r)
          .ok { db with squad_members := members1, squad_join_requests := requests1 }
      else
        let requests1 := db.squad_join_requests.map (fun r =>
          if r.id == requestId then
            { r with status := "rejected", resolved_by := some resolvingUserId }
          else r)
        .ok { db with squad_join_requests := requests1 }

/-- `upgradeSquadFacility`: role gate, squad and facility row locks, cost
check, facility level bump, squad level recomputation from all facility
rows, point deduction and audit record — atomic, so every error branch
returns no state. -/
def upgradeSquadFacility (userId squadId : Nat) (facilityType : String) (db : Db) :
    Except String Db :=
  if !(FACILITY_TYPES.contains facilityType) then
    .error ("Unknown facility type")
  else if !(isLeaderOrCoLeader db.squad_members userId squadId) then
    .error ("Only squad leaders and co-leaders can perform this action")
  else
    match db.squads.find? (fun s => s.id == squadId) with
    | none => .error ("Squad not found")
    | some squad =>
      match db.squad_facilities.find? (fun f =>
          f.squad_id == squadId && f.facility_type == facilityType) with
      | none => .error ("Facility slot not initialised for this squad")
      | some facility =>
        match upgradeCost facilityType facility.level with
        | none => .error ("Unknown facility type")
        | some cost =>
          if squad.unspent_points < cost then
            .error ("Insufficient points")
          else
            let facilities1 := db.squad_facilities.map (fun f =>
              if f.squad_id == squadId && f.facility_type == facilityType then
                { f with level := f.level + 1 }
              else f)
            let newLevel := computeSquadLevel facilities1 squadId
            let squads1 := db.squads.map (fun s =>
              if s.id == squadId then
                { s with unspent_points := s.unspent_points - cost,
                         level := newLevel }
              else s)
            let tx : SquadSpendTransaction :=
              { squad_id := squadId, user_id := userId, points_spent := cost,
                facility_type := facilityType, from_level := facility.level,
                to_level := facility.level + 1 }
            .ok { db with
                  squad_facilities := facilities1
                  squads := squads1
                  squad_spend_transactions := db.squad_spend_transactions ++ [tx] }

-- ── ROUND-ROBIN FIXTURE GENERATOR (src/unnamed/part_007) ───────────────

/-- Swap home and away of one pairing. -/
def swapPair {α : Type} (p : α × α) : α × α := (p.2, p.1)

/-- The `i == 0 && rIdx % 2 === 1` swap of `getRoundRobinPairings`: only
the pairing of the fixed club (loop index 0) is conditionally flipped. -/
def condSwapHead {α : Type} (b : Bool) : List (α × α) → List (α × α)
  | [] => []
  | p :: t => (if b then swapPair p else p) :: t

/-- One first-half round of `getRoundRobinPairings` for round index
`rIdx`: rotate `rest` right by `rIdx % rest.length`, prepend the fixed
club, pair the resulting list from the outside in (the loop
`h = all[i], a = all[n-1-i]` for `i < n / 2` is the zip of the first half
with the reversed second half), and flip the fixed club's pairing on odd
rounds. -/
def rrRound {α : Type} (fixed : α) (rest : List α) (rIdx : Nat) : List (α × α) :=
  let rot := rIdx % rest.length
  let rotated :=
    if rot == 0 then rest
    else rest.drop (rest.length - rot) ++ rest.take (rest.length - rot)
  let all := fixed :: rotated
  let base := (all.take ((rest.length + 1) / 2)).zip
    ((all.drop ((rest.length + 1) / 2)).reverse)
  condSwapHead (rIdx % 2 == 1) base

/-- `getRoundRobinPairings` of src/unnamed/part_007: `half = n - 1`
first-half rounds; a matchday beyond `half` replays round
`matchday - half - 1` with every pairing's home and away swapped. -/
def getRoundRobinPairings {α : Type} (clubIds : List α) (matchday : Nat) :
    List (α × α) :=
  match clubIds with
  | [] => []
  | fixed :: rest =>
    if matchday > rest.length then
      (rrRound fixed rest (matchday - rest.length - 1)).map swapPair
    else
      rrRound fixed rest (matchday - 1)

-- ── MATCHDAY SIMULATOR (src/unnamed/part_007, simulateDayCore) ─────────

/-- A row of the `Fixture` entity. -/
structure Fixture where
  id : Nat
  season_id : Nat
  matchday : Nat
  home_club_id : Nat
  away_club_id : Nat
  home_goals : Option Nat
  away_goals : Option Nat
  status : String
  played_at : Option Int
deriving Repr, DecidableEq

/-- A row of the `Season` entity (the fields the simulator touches). -/
structure Season where
  id : Nat
  current_matchday : Nat
  status : String
  is_active : Bool
  fixtures_generated : Bool
deriving Repr, DecidableEq

/-- A row of the `TeamSeason` standings entity. -/
structure TeamSeason where
  id : Nat
  club_id : Nat
  played : Nat
  won : Nat
  drawn : Nat
  lost : Nat
  goals_for : Nat
  goals_against : Nat
  goal_difference : Int
  points : Nat
deriving Repr, DecidableEq

/-- The per-tier slice of the store the simulator reads and writes.
`progress` is `SeasonProgress.current_matchday` (the row is created at 1
when absent); `nextFixtureId` stands in for the entity store's id
generator. -/
structure TierState where
  season : Option Season
  progress : Option Nat
  fixtures : List Fixture
  clubs : List Nat
  teamSeasons : List TeamSeason
  nextFixtureId : Nat
deriving Repr, DecidableEq

/-- The classification of step 5: a fixture is upcoming when it has no
`played_at` and no recorded goals (`!f.played_at && f.home_goals == null
&& f.away_goals == null`); the stored status string is not consulted. -/
def isUpcoming (f : Fixture) : Bool :=
  f.played_at == none && f.home_goals == none && f.away_goals == none

/-- The step-5 `played` classification: `f.played_at != null || f.status
=== 'PLAYED'`. -/
def isPlayed (f : Fixture) : Bool :=
  !(f.played_at == none) || f.status == "PLAYED"

/-- What steps 5 to 7 decide for a tier from its matchday fixtures. -/
inductive ClassifyDecision where
  | shortCircuit
  | abortGate (got : Nat)
  | simulate
deriving Repr, DecidableEq

/-- Steps 5 to 7 of `simulateDayCore`: the idempotency short-circuit when
twelve fixtures are played and none upcoming, the hard gate when the
upcoming count is not twelve, otherwise simulate. -/
def classifyDecision (fixtures : List Fixture) : ClassifyDecision :=
  let upcoming := fixtures.filter isUpcoming
  let played := fixtures.filter isPlayed
  if played.length == 12 && upcoming.length == 0 then .shortCircuit
  else if !(upcoming.length == 12) then .abortGate upcoming.length
  else .simulate

/-- Per-tier outcome recorded in the run summary. -/
inductive TierOutcome where
  | newSeasonCreated
  | invalidMatchday
  | seasonCompleted
  | needClubs (got : Nat)
  | alreadyPlayed (matchday : Nat)
  | abortUnplayedCount (got played total : Nat)
  | verifyFailed (confirmed : Nat)
  | ok (matchday : Nat) (simulated : Nat)
deriving Repr, DecidableEq

/-- One simulated result of step 6 (goals drawn from the random oracle). -/
structure SimResult where
  fixtureId : Nat
  homeClubId : Nat
  awayClubId : Nat
  home_goals : Nat
  away_goals : Nat
deriving Repr, DecidableEq

/-- Standings accumulator of step 10, keyed by `TeamSeason.id`, seeded
from the current row values. -/
structure StandingDelta where
  played : Nat
  won : Nat
  drawn : Nat
  lost : Nat
  goals_for : Nat
  goals_against : Nat
  points : Nat
deriving Repr, DecidableEq

/-- Seed a delta from a standings row (`home.played || 0` etc.). -/
def seedDelta (ts : TeamSeason) : StandingDelta :=
  { played := ts.played, won := ts.won, drawn := ts.drawn, lost := ts.lost,
    goals_for := ts.goals_for, goals_against := ts.goals_against,
    points := ts.points }

/-- Look up a delta in the accumulator, seeding it when absent. -/
def deltaFor (updates : List (Nat × StandingDelta)) (ts : TeamSeason) :
    StandingDelta :=
  match updates.find? (fun u => u.1 == ts.id) with
  | some u => u.2
  | none => seedDelta ts

/-- Store a delta back in the accumulator. -/
def putDelta (updates : List (Nat × StandingDelta)) (tsId : Nat)
    (d : StandingDelta) : List (Nat × StandingDelta) :=
  if updates.any (fun u => u.1 == tsId) then
    updates.map (fun u => if u.1 == tsId then (u.1, d) else u)
  else updates ++ [(tsId, d)]

/-- Fold one result into the home and away deltas (step 10's W/D/L,
goals and points bookkeeping); a result whose clubs have no standings row
is skipped. -/
def applyResultToStandings (teamSeasons : List TeamSeason)
    (updates : List (Nat × StandingDelta)) (r : SimResult) :
    List (Nat × StandingDelta) :=
  match teamSeasons.find? (fun ts => ts.club_id == r.homeClubId),
        teamSeasons.find? (fun ts => ts.club_id == r.awayClubId) with
  | some home, some away =>
    let h0 := deltaFor updates home
    let a0 := deltaFor (putDelta updates home.id h0) away
    let h := { h0 with played := h0.played + 1,
                       goals_for := h0.goals_for + r.home_goals,
                       goals_against := h0.goals_against + r.away_goals }
    let a := { a0 with played := a0.played + 1,
                       goals_for := a0.goals_for + r.away_goals,
                       goals_against := a0.goals_against + r.home_goals }
    let h1 :=
      if r.home_goals > r.away_goals then
        { h with won := h.won + 1, points := h.points + 3 }
      else if r.home_goals < r.away_goals then
        { h with lost := h.lost + 1 }
      else { h with drawn := h.drawn + 1, points := h.points + 1 }
    let a1 :=
      if r.home_goals > r.away_goals then
        { a with lost := a.lost + 1 }
      else if r.home_goals < r.away_goals then
        { a with won := a.won + 1, points := a.points + 3 }
      else { a with drawn := a.drawn + 1, points := a.points + 1 }
    putDelta (putDelta (putDelta updates home.id h1) away.id a1) away.id a1
  | _, _ => updates

/-- Write the accumulated deltas back to the `TeamSeason` rows
(`goal_difference = goals_for - goals_against`). -/
def writeStandings (teamSeasons : List TeamSeason)
    (updates : List (Nat × StandingDelta)) : List TeamSeason :=
  updates.foldl
    (fun tss u => tss.map (fun ts =>
      if ts.id == u.1 then
        { ts with played := u.2.played, won := u.2.won, drawn := u.2.drawn,
                  lost := u.2.lost, goals_for := u.2.goals_for,
                  goals_against := u.2.goals_against,
                  goal_difference := (u.2.goals_for : Int) - u.2.goals_against,
                  points := u.2.points }
      else ts))
    teamSeasons

/-- Collect the distinct club ids of the simulated results in first-seen
order (the `Set` of step 9's auto-creation). -/
def resultClubIds (results : List SimResult) : List Nat :=
  results.foldl
    (fun acc r =>
      let acc1 := if acc.contains r.homeClubId then acc else acc ++ [r.homeClubId]
      if acc1.contains r.awayClubId then acc1 else acc1 ++ [r.awayClubId])
    []

/-- Steps 5 to 11 of `simulateDayCore` for one tier, given the active
season, the validated matchday and the already fetched (or just
generated) fixture list.  `goals` is the random oracle: the pair
`(Math.floor(Math.random()*4), Math.floor(Math.random()*4))` drawn for
the i-th upcoming fixture.  All entity writes succeed in the model, so
the write-retry failure branches cannot fire; the post-write verification
check is kept. -/
def simulateMatchdayPhase (goals : Nat → Nat × Nat) (nowTs : Int)
    (season : Season) (matchday : Nat) (st : TierState) :
    TierOutcome × TierState :=
  let fixtures := st.fixtures.filter (fun f => f.matchday == matchday)
  match classifyDecision fixtures with
  | .shortCircuit =>
    (.alreadyPlayed matchday,
     { st with progress := some (matchday + 1),
               season := some { season with current_matchday := matchday + 1 } })
  | .abortGate got =>
    (.abortUnplayedCount got (fixtures.filter isPlayed).length fixtures.length, st)
  | .simulate =>
    let upcoming := fixtures.filter isUpcoming
    let results := upcoming.enum.map (fun e =>
      { fixtureId := e.2.id, homeClubId := e.2.home_club_id,
        awayClubId := e.2.away_club_id, home_goals := (goals e.1).1,
        away_goals := (goals e.1).2 : SimResult })
    let fixtures1 := results.foldl
      (fun fs r => fs.map (fun f =>
        if f.id == r.fixtureId then
          { f with status := "PLAYED", home_goals := some r.home_goals,
                   away_goals := some r.away_goals, played_at := some nowTs }
        else f))
      st.fixtures
    let st1 := { st with fixtures := fixtures1 }
    let confirmed := (fixtures1.filter (fun f => f.matchday == matchday)).filter
      isPlayed
    if !(confirmed.length == 12) then (.verifyFailed confirmed.length, st1)
    else
      let teamSeasons0 :=
        if st1.teamSeasons.isEmpty then
          (resultClubIds results).map (fun cid =>
            { id := cid, club_id := cid, played := 0, won := 0, drawn := 0,
              lost := 0, goals_for := 0, goals_against := 0,
              goal_difference := 0, points := 0 : TeamSeason })
        else st1.teamSeasons
      let updates := results.foldl (applyResultToStandings teamSeasons0) []
      let teamSeasons1 := writeStandings teamSeasons0 updates
      (.ok matchday results.length,
       { st1 with teamSeasons := teamSeasons1,
                  progress := some (matchday + 1),
                  season := some { season with current_matchday := matchday + 1 } })

/-- One tier of `simulateDayCore` (src/unnamed/part_007): create a season
at matchday 1 when none is active; create the progress row at 1 when
absent; reject an invalid matchday; complete the season past matchday 46;
generate the matchday's twelve fixtures with `getRoundRobinPairings` over
the 24 clubs sorted by id when none exist; then classify and simulate
through `simulateMatchdayPhase`. -/
def simulateTier (goals : Nat → Nat × Nat) (nowTs : Int) (st : TierState) :
    TierOutcome × TierState :=
  match st.season with
  | none =>
    let created : Season :=
      { id := 1, current_matchday := 1, status := "active", is_active := true,
        fixtures_generated := false }
    (.newSeasonCreated, { st with season := some created })
  | some season =>
    let matchday := (st.progress).getD 1
    let st0 := { st with progress := some matchday }
    if matchday < 1 then (.invalidMatchday, st0)
    else if matchday > 46 then
      let finished := { season with status := "completed", is_active := false }
      (.seasonCompleted, { st0 with season := some finished })
    else
      let fetched := st0.fixtures.filter (fun f => f.matchday == matchday)
      if fetched.isEmpty then
        if !(st0.clubs.length == 24) then (.needClubs st0.clubs.length, st0)
        else
          let ids := st0.clubs.mergeSort (fun a b => a ≤ b)
          let pairings := getRoundRobinPairings ids matchday
          let newFixtures := pairings.enum.map (fun e =>
            { id := st0.nextFixtureId + e.1, season_id := season.id,
              matchday := matchday, home_club_id := e.2.1,
              away_club_id := e.2.2, home_goals := none, away_goals := none,
              status := "UPCOMING", played_at := none : Fixture })
          let st1 := { st0 with
            fixtures := st0.fixtures ++ newFixtures,
            nextFixtureId := st0.nextFixtureId + newFixtures.length,
            season := some { season with fixtures_generated := true } }
          simulateMatchdayPhase goals nowTs
            { season with fixtures_generated := true } matchday st1
      else simulateMatchdayPhase goals nowTs season matchday st0

-- ── SHARED EXAMPLE STATES ──────────────────────────────────────────────

/-- An active championship player used by the concrete scenarios. -/
def examplePlayer : Player :=
  { id := 1, user_id := 10, display_name := some "A", overall_rating := 90,
    current_league := "championship", career_status := "active",
    career_started_at := 0 }

/-- An otherwise empty store holding `examplePlayer`. -/
def exampleDb : Db :=
  { players := [examplePlayer], career_completions := [], coach_stats := [],
    squads := [], squad_members := [], squad_join_requests := [],
    squad_facilities := [], squad_point_events := [],
    squad_spend_transactions := [],
    sweep_state := { last_sweep_utc_day := none, last_sweep_at := none,
                     run_count := 0 } }

-- ── SUPPORTING LEMMAS ──────────────────────────────────────────────────

/-- For an elapsed time nonnegative, or negative by less than a day, the
stored `days_to_premier` agrees with the specified
`max(1, ceil(elapsed / 86400000))` and is positive. -/
theorem daysToPremierDb_eq_max (nowMs startedMs : Int)
    (h : -msPerDay < nowMs - startedMs) :
    daysToPremierDb nowMs startedMs =
      max 1 (jsMathCeilDiv (nowMs - startedMs) msPerDay) ∧
    0 < daysToPremierDb nowMs startedMs := by
  have hm : (0 : Int) < msPerDay := by norm_num [msPerDay]
  have hc : 0 ≤ jsMathCeilDiv (nowMs - startedMs) msPerDay := by
    unfold jsMathCeilDiv
    have hlt : -(nowMs - startedMs) < msPerDay := by
      unfold msPerDay at h ⊢
      omega
    rw [Int.fdiv_eq_ediv _ (le_of_lt hm)]
    rcases le_or_lt 0 (-(nowMs - startedMs)) with hnn | hneg
    · rw [Int.ediv_eq_zero_of_lt hnn hlt]
      norm_num
    · have := Int.ediv_neg' hneg hm
      omega
  have hd : daysToPremierDb nowMs startedMs =
      if jsMathCeilDiv (nowMs - startedMs) msPerDay = 0 then 1
      else jsMathCeilDiv (nowMs - startedMs) msPerDay := rfl
  rw [hd]
  constructor
  · split
    · omega
    · omega
  · split
    · omega
    · omega

/-- For an elapsed time of a full day or more in the past, the computed
`Math.ceil(elapsed / 86400000) || 1` is at most −1: the `|| 1` only
rescues a zero ceiling, never a negative one. -/
theorem daysToPremierDb_nonpos (nowMs startedMs : Int)
    (h : nowMs - startedMs ≤ -msPerDay) :
    daysToPremierDb nowMs startedMs ≤ -1 := by
  have hm : (0 : Int) < msPerDay := by norm_num [msPerDay]
  have h1 : (1 : Int) ≤ (-(nowMs - startedMs)).fdiv msPerDay := by
    rw [Int.fdiv_eq_ediv _ (le_of_lt hm), Int.le_ediv_iff_mul_le hm]
    unfold msPerDay at h ⊢
    omega
  have hc : jsMathCeilDiv (nowMs - startedMs) msPerDay ≤ -1 := by
    unfold jsMathCeilDiv
    omega
  have hd : daysToPremierDb nowMs startedMs =
      if jsMathCeilDiv (nowMs - startedMs) msPerDay = 0 then 1
      else jsMathCeilDiv (nowMs - startedMs) msPerDay := rfl
  rw [hd]
  split
  · rename_i hzero
    omega
  · exact hc

-- ── C2 ─────────────────────────────────────────────────────────────────

/-- `examplePlayer` whose career starts one full day after the completion
instant (a clock regression of exactly one day). -/
def playerStartedLater : Player := { examplePlayer with career_started_at := 86400000 }

/-- Store holding `playerStartedLater`. -/
def dbStartedLater : Db := { exampleDb with players := [playerStartedLater] }

/-- C2 counterexample: completing at `nowMs = 0` a player whose
`career_started_at` is 86_400_000 does not record
`max(1, ceil(elapsed / 86400000)) = 1` at all — the code computes
`Math.ceil(-1) || 1 = -1`, the insert violates the schema's
`CHECK (days_to_premier > 0)`, and the transaction rolls back with an
error: no completion is recorded and the player stays active, where the
claim promises a recorded value of 1. -/
theorem completePlayerCareer_days_counterexample :
    completePlayerCareer 0 1 dbStartedLater = .error careerDaysCheckMsg ∧
    max 1 (jsMathCeilDiv ((0 : Int) - 86400000) msPerDay) = 1 ∧
    daysToPremierDb 0 86400000 = -1 := by
  refine ⟨rfl, by decide, by decide⟩

/-- C2, amended: whenever the elapsed time exceeds −86_400_000 ms — in
particular whenever it is nonnegative, or zero, or only slightly negative
— `completePlayerCareer` records `days_to_premier = max(1,
ceil(elapsed/86400000))`, a positive integer.  When the elapsed time is
−86_400_000 ms or less, the computed `Math.ceil(elapsed/86400000) || 1`
is a negative integer, the insert violates the schema's
`CHECK (days_to_premier > 0)`, and the call throws with the whole
transaction rolled back — nothing is recorded. -/
theorem completePlayerCareer_days_amended (nowMs : Int) (pid : Nat) (db : Db)
    (p : Player)
    (hfind : db.players.find? (fun q => q.id == pid) = some p)
    (hact : p.career_status = "active")
    (hnoc : db.career_completions.any (fun c => c.player_id == pid) = false) :
    (-msPerDay < nowMs - p.career_started_at →
      ∃ r db', completePlayerCareer nowMs pid db = .ok (r, db') ∧
        r.already_completed = false ∧
        db'.career_completions = db.career_completions ++
          [{ player_id := pid, user_id := p.user_id,
             days_to_premier :=
               max 1 (jsMathCeilDiv (nowMs - p.career_started_at) msPerDay) }] ∧
        0 < max 1 (jsMathCeilDiv (nowMs - p.career_started_at) msPerDay)) ∧
    (nowMs - p.career_started_at ≤ -msPerDay →
      completePlayerCareer nowMs pid db = .error careerDaysCheckMsg) := by
  have hstat : (p.career_status == "completed") = false := by
    rw [hact]; decide
  constructor
  · intro helapsed
    obtain ⟨hdays, hdpos⟩ := daysToPremierDb_eq_max nowMs p.career_started_at helapsed
    have hguard : ¬ daysToPremierDb nowMs p.career_started_at ≤ 0 := by omega
    have hpos : 0 < max 1 (jsMathCeilDiv (nowMs - p.career_started_at) msPerDay) :=
      lt_max_of_lt_left one_pos
    simp only [completePlayerCareer, hfind, hstat, Bool.false_eq_true,
      if_false, if_neg hguard, hnoc]
    simp only [hdays]
    cases hmem : db.squad_members.find?
        (fun m => m.user_id == p.user_id && m.status == "active") with
    | none => exact ⟨_, _, rfl, rfl, rfl, hpos⟩
    | some membership => exact ⟨_, _, rfl, rfl, rfl, hpos⟩
  · intro helapsed
    have hle := daysToPremierDb_nonpos nowMs p.career_started_at helapsed
    have hguard : daysToPremierDb nowMs p.career_started_at ≤ 0 := by omega
    simp only [completePlayerCareer, hfind, hstat, Bool.false_eq_true,
      if_false, if_pos hguard]

/-- Witness for the amended C2 theorem at the concrete example store (the
success branch fires: the elapsed day is positive). -/
theorem completePlayerCareer_days_amended_witness :
    ((-msPerDay < (86400000 : Int) - examplePlayer.career_started_at →
      ∃ r db', completePlayerCareer 86400000 1 exampleDb = .ok (r, db') ∧
        r.already_completed = false ∧
        db'.career_completions = exampleDb.career_completions ++
          [{ player_id := 1, user_id := examplePlayer.user_id,
             days_to_premier := max 1 (jsMathCeilDiv
               ((86400000 : Int) - examplePlayer.career_started_at) msPerDay) }] ∧
        0 < max 1 (jsMathCeilDiv
          ((86400000 : Int) - examplePlayer.career_started_at) msPerDay)) ∧
    ((86400000 : Int) - examplePlayer.career_started_at ≤ -msPerDay →
      completePlayerCareer 86400000 1 exampleDb = .error careerDaysCheckMsg)) :=
  completePlayerCareer_days_amended 86400000 1 exampleDb examplePlayer
    (by decide) (by decide) (by decide)

-- ── C10 ────────────────────────────────────────────────────────────────

/-- C10: the database-backed `updatePlayerProgress` rejects the call
whenever both inputs are JavaScript-falsy; in particular the input
`{overall_rating: 0}` with no league throws even though a field was
supplied, and a call that supplies only `overall_rating` can never write
a zero rating into an active player row. -/
theorem updatePlayerProgress_rejects_falsy (players : List Player) (pid : Nat) :
    updatePlayerProgress pid (some 0) none players =
      .error ("Provide at least one of: overall_rating, current_league") ∧
    (∀ (r : Option Int) (cl : Option String),
       jsFalsyInt r = true → jsFalsyStr cl = true →
       updatePlayerProgress pid r cl players =
         .error ("Provide at least one of: overall_rating, current_league")) ∧
    (∀ (r : Option Int) (ret : Option Player) (players' : List Player),
       updatePlayerProgress pid r none players = .ok (ret, players') →
       ∀ p' ∈ players', p'.id = pid → p'.career_status = "active" →
         ¬ p'.overall_rating = 0) := by
  refine ⟨?_, ?_, ?_⟩
  · unfold updatePlayerProgress
    norm_num [jsFalsyInt, jsFalsyStr]
  · intro r cl hr hcl
    unfold updatePlayerProgress
    rw [hr, hcl]
    rfl
  · intro r ret players' hok p' hp' hid hstat
    unfold updatePlayerProgress at hok
    by_cases hguard : (jsFalsyInt r && jsFalsyStr none) = true
    · rw [if_pos hguard] at hok
      exact absurd hok (by intro hcontra; cases hcontra)
    · rw [if_neg hguard] at hok
      have hr : ∃ v, r = some v ∧ v ≠ 0 := by
        cases r with
        | none =>
          exact absurd (by decide : (jsFalsyInt (none : Option Int) &&
            jsFalsyStr none) = true) hguard
        | some v =>
          refine ⟨v, rfl, ?_⟩
          intro hv
          subst hv
          exact hguard (by decide)
      obtain ⟨v, rfl, hv⟩ := hr
      dsimp only at hok
      have hpair := (Except.ok.injEq _ _).mp hok
      have hplayers' : players' = players.map (fun p =>
          if p.id == pid && p.career_status == "active" then
            { p with overall_rating := v }
          else p) :=
        (congrArg Prod.snd hpair).symm
      subst hplayers'
      obtain ⟨q, hq, hq'⟩ := List.mem_map.mp hp'
      by_cases hcond : (q.id == pid && q.career_status == "active") = true
      · rw [if_pos hcond] at hq'
        subst hq'
        simpa using hv
      · rw [if_neg hcond] at hq'
        subst hq'
        exact absurd (by simp [hid, hstat]) hcond

/-- Witness for C10 at concrete inputs. -/
theorem updatePlayerProgress_rejects_falsy_witness :
    updatePlayerProgress 7 (some 0) (some "") ([] : List Player) =
      .error ("Provide at least one of: overall_rating, current_league") :=
  (updatePlayerProgress_rejects_falsy [] 7).2.1 (some 0) (some "")
    (by decide) (by decide)

-- ── LIST HELPER LEMMAS ─────────────────────────────────────────────────

/-- Mapping a function that does not change whether a row matches the key
predicate commutes with `find?`. -/
theorem find?_map_pred {α : Type} (l : List α) (pr : α → Bool) (f : α → α)
    (hf : ∀ x, pr (f x) = pr x) :
    (l.map f).find? pr = (l.find? pr).map f := by
  induction l with
  | nil => rfl
  | cons a t ih =>
    by_cases ha : pr a = true
    · simp [List.find?, hf, ha]
    · have ha' : pr a = false := by
        cases h : pr a
        · rfl
        · exact absurd h ha
      simp [List.find?, hf, ha', ih]

/-- A list none of whose elements matches the predicate filters to `[]`. -/
theorem filter_eq_nil_of_any_eq_false {α : Type} (l : List α) (pr : α → Bool)
    (h : l.any pr = false) : l.filter pr = [] := by
  induction l with
  | nil => rfl
  | cons a t ih =>
    simp only [List.any_cons, Bool.or_eq_false_iff] at h
    simp [List.filter, h.1, ih h.2]

-- ── C1 ─────────────────────────────────────────────────────────────────

/-- A call on a player already marked completed returns
`{already_completed: true}` and leaves the whole store untouched. -/
theorem completePlayerCareer_of_completed (nowMs : Int) (pid : Nat) (db : Db)
    (p : Player)
    (hfind : db.players.find? (fun q => q.id == pid) = some p)
    (hcomp : p.career_status = "completed") :
    completePlayerCareer nowMs pid db =
      .ok ({ already_completed := true, days_to_premier := none }, db) := by
  have hstat : (p.career_status == "completed") = true := by rw [hcomp]; decide
  simp only [completePlayerCareer, hfind, hstat, if_true]

/-- C1: `completePlayerCareer` is idempotent.  A first call on an active
player with no completion row — at an instant for which the schema's
`CHECK (days_to_premier > 0)` passes, i.e. the elapsed time exceeds
−86_400_000 ms — succeeds with `already_completed = false` and leaves
exactly one `career_completions` row for the player; the second call
returns `{already_completed: true}` and returns the store **unchanged** —
hence still exactly one completion row, the same `coach_stats` rows, and
no additional `squad_point_events`. -/
theorem completePlayerCareer_idempotent (nowMs nowMs2 : Int) (pid : Nat)
    (db : Db) (p : Player)
    (hfind : db.players.find? (fun q => q.id == pid) = some p)
    (hact : p.career_status = "active")
    (hnoc : db.career_completions.any (fun c => c.player_id == pid) = false)
    (helapsed : -msPerDay < nowMs - p.career_started_at) :
    ∃ r db1, completePlayerCareer nowMs pid db = .ok (r, db1) ∧
      r.already_completed = false ∧
      (db1.career_completions.filter (fun c => c.player_id == pid)).length = 1 ∧
      completePlayerCareer nowMs2 pid db1 =
        .ok ({ already_completed := true, days_to_premier := none }, db1) := by
  have hpid : (p.id == pid) = true := by
    have h := List.find?_some (p := fun q : Player => q.id == pid) hfind
    simpa using h
  have hstat : (p.career_status == "completed") = false := by rw [hact]; decide
  have hfilter : db.career_completions.filter (fun c => c.player_id == pid) = [] :=
    filter_eq_nil_of_any_eq_false _ _ hnoc
  -- the player-marking map preserves ids, hence the key predicate
  have hf : ∀ q : Player,
      (((fun q : Player => if q.id == pid then
          { q with career_status := "completed" } else q) q).id == pid) =
        (q.id == pid) := by
    intro q
    by_cases hq : (q.id == pid) = true
    · simp [hq]
    · simp only [Bool.not_eq_true] at hq
      simp [hq]
  have hfind1 : ((db.players.map (fun q => if q.id == pid then
      { q with career_status := "completed" } else q)).find?
        (fun q => q.id == pid)) =
      some { p with career_status := "completed" } := by
    rw [find?_map_pred _ _ _ hf, hfind]
    dsimp only [Option.map]
    rw [if_pos hpid]
  have hdpos := (daysToPremierDb_eq_max nowMs p.career_started_at helapsed).2
  have hguard : ¬ daysToPremierDb nowMs p.career_started_at ≤ 0 := by omega
  simp only [completePlayerCareer, hfind, hstat, hnoc, Bool.false_eq_true,
    if_false, if_neg hguard]
  cases hmem : db.squad_members.find?
      (fun m => m.user_id == p.user_id && m.status == "active") with
  | none =>
    refine ⟨_, _, rfl, rfl, ?_, ?_⟩
    · simp [List.filter_append, hfilter]
    · exact completePlayerCareer_of_completed nowMs2 pid _ _ hfind1 rfl
  | some membership =>
    refine ⟨_, _, rfl, rfl, ?_, ?_⟩
    · simp [List.filter_append, hfilter]
    · exact completePlayerCareer_of_completed nowMs2 pid _ _ hfind1 rfl

/-- Witness for C1 at the concrete example store. -/
theorem completePlayerCareer_idempotent_witness :
    ∃ r db1, completePlayerCareer 86400000 1 exampleDb = .ok (r, db1) ∧
      r.already_completed = false ∧
      (db1.career_completions.filter (fun c => c.player_id == 1)).length = 1 ∧
      completePlayerCareer 172800000 1 db1 =
        .ok ({ already_completed := true, days_to_premier := none }, db1) :=
  completePlayerCareer_idempotent 86400000 172800000 1 exampleDb examplePlayer
    (by decide) (by decide) (by decide) (by decide)

-- ── SWEEP PRESERVATION LEMMAS ──────────────────────────────────────────

/-- A successful `completePlayerCareer` never touches the sweep state. -/
theorem completePlayerCareer_ok_sweep_state (nowMs : Int) (pid : Nat) (db : Db)
    (r : CompleteResult) (db' : Db)
    (h : completePlayerCareer nowMs pid db = .ok (r, db')) :
    db'.sweep_state = db.sweep_state := by
  unfold completePlayerCareer at h
  dsimp only at h
  split at h
  · cases h
  · split at h
    · cases h; rfl
    · split at h
      · cases h
      · split at h
        · cases h; rfl
        · split at h
          · cases h; rfl
          · cases h; rfl

/-- Phase 4 of the sweep never touches the sweep state. -/
theorem sweepCompletions_sweep_state (nowMs : Int) :
    ∀ (l : List Player) (db : Db),
      (sweepCompletions nowMs l db).2.2.sweep_state = db.sweep_state := by
  intro l
  induction l with
  | nil => intro db; rfl
  | cons p rest ih =>
    intro db
    unfold sweepCompletions
    cases h : completePlayerCareer nowMs p.id db with
    | ok x =>
      obtain ⟨r, db'⟩ := x
      dsimp only
      rw [ih db']
      exact completePlayerCareer_ok_sweep_state nowMs p.id db r db' h
    | error e => exact ih db

-- ── C3 ─────────────────────────────────────────────────────────────────

/-- C3: the sweep runs at most once per UTC day.  With `force = false`, an
invocation that finds today off-schedule (`today % 4 ≠ 0`) or already
stamped (`last_sweep_utc_day = today`) returns `ran: false` and leaves
the whole store untouched — no player is classified, completed or
promoted; an executing invocation stamps `last_sweep_utc_day = today`,
`last_sweep_at = now` and `run_count + 1`; and two consecutive
invocations on the same day can never both execute. -/
theorem runTransferSweep_once_per_day (db : Db) (today : Nat)
    (nowMs nowMs2 : Int) :
    ((today % 4 ≠ 0 ∨ db.sweep_state.last_sweep_utc_day = some today) →
       runTransferSweep false today nowMs db =
         ({ ran := false, forced := false, utc_day := today,
            total_active_players := 0, promotions := [], completions := [],
            skipped := [], errors := [] }, db)) ∧
    (today % 4 = 0 → db.sweep_state.last_sweep_utc_day ≠ some today →
       (runTransferSweep false today nowMs db).1.ran = true ∧
       ((runTransferSweep false today nowMs db).2).sweep_state =
         { last_sweep_utc_day := some today, last_sweep_at := some nowMs,
           run_count := db.sweep_state.run_count + 1 }) ∧
    ¬ ((runTransferSweep false today nowMs db).1.ran = true ∧
       (runTransferSweep false today nowMs2
         ((runTransferSweep false today nowMs db).2)).1.ran = true) := by
  have hskip : ∀ (d : Db) (t : Int),
      (today % 4 ≠ 0 ∨ d.sweep_state.last_sweep_utc_day = some today) →
      runTransferSweep false today t d =
        ({ ran := false, forced := false, utc_day := today,
           total_active_players := 0, promotions := [], completions := [],
           skipped := [], errors := [] }, d) := by
    intro d t h
    have hcond : (!false && (!(today % 4 == 0) ||
        (d.sweep_state.last_sweep_utc_day == some today))) = true := by
      rcases h with h | h
      · have h1 : (today % 4 == 0) = false := by
          simp only [beq_eq_false_iff_ne, ne_eq]
          exact h
        simp [h1]
      · have h2 : (d.sweep_state.last_sweep_utc_day == some today) = true := by
          rw [h]; simp
        simp [h2]
    unfold runTransferSweep
    rw [if_pos hcond]
  have hrun : ∀ (d : Db) (t : Int), today % 4 = 0 →
      d.sweep_state.last_sweep_utc_day ≠ some today →
      (runTransferSweep false today t d).1.ran = true ∧
      ((runTransferSweep false today t d).2).sweep_state =
        { last_sweep_utc_day := some today, last_sweep_at := some t,
          run_count := d.sweep_state.run_count + 1 } := by
    intro d t hdue hnew
    have hcond : (!false && (!(today % 4 == 0) ||
        (d.sweep_state.last_sweep_utc_day == some today))) = false := by
      have h1 : (today % 4 == 0) = true := by simp [hdue]
      have h2 : (d.sweep_state.last_sweep_utc_day == some today) = false := by
        simp only [beq_eq_false_iff_ne, ne_eq]
        exact hnew
      simp [h1, h2]
    unfold runTransferSweep
    simp only [hcond, Bool.false_eq_true, if_false]
    refine ⟨rfl, ?_⟩
    show (sweepCompletions t
        (sweepToComplete (sweepActive (sweepStamp today t d)))
        (sweepStamp today t d)).2.2.sweep_state = _
    rw [sweepCompletions_sweep_state]
    rfl
  refine ⟨hskip db nowMs, hrun db nowMs, ?_⟩
  rintro ⟨hran1, hran2⟩
  by_cases hdue : today % 4 = 0
  · by_cases hnew : db.sweep_state.last_sweep_utc_day = some today
    · rw [hskip db nowMs (Or.inr hnew)] at hran1
      cases hran1
    · have hst := (hrun db nowMs hdue hnew).2
      have : ((runTransferSweep false today nowMs db).2).sweep_state.last_sweep_utc_day
          = some today := by rw [hst]
      rw [hskip _ nowMs2 (Or.inr this)] at hran2
      cases hran2
  · rw [hskip db nowMs (Or.inl hdue)] at hran1
    cases hran1

/-- Witness for C3 at a concrete store and day. -/
theorem runTransferSweep_once_per_day_witness :
    (runTransferSweep false 9 5 exampleDb =
       ({ ran := false, forced := false, utc_day := 9,
          total_active_players := 0, promotions := [], completions := [],
          skipped := [], errors := [] }, exampleDb)) ∧
    ((runTransferSweep false 8 5 exampleDb).1.ran = true ∧
     ((runTransferSweep false 8 5 exampleDb).2).sweep_state =
       { last_sweep_utc_day := some 8, last_sweep_at := some 5,
         run_count := 1 }) ∧
    ¬ ((runTransferSweep false 8 5 exampleDb).1.ran = true ∧
       (runTransferSweep false 8 7
         ((runTransferSweep false 8 5 exampleDb).2)).1.ran = true) := by
  obtain ⟨h1, h2, -⟩ := runTransferSweep_once_per_day exampleDb 9 5 7
  obtain ⟨-, h4, h5⟩ := runTransferSweep_once_per_day exampleDb 8 5 7
  exact ⟨h1 (Or.inl (by decide)), h4 (by decide) (by decide), h5⟩

-- ── C8 SUPPORT ─────────────────────────────────────────────────────────

/-- Mapping a function that fixes every matching row leaves `find?`
unchanged. -/
theorem find?_map_of_fixed {α : Type} (l : List α) (pr : α → Bool) (f : α → α)
    (hf : ∀ x, pr (f x) = pr x) (hfix : ∀ x, pr x = true → f x = x) :
    (l.map f).find? pr = l.find? pr := by
  rw [find?_map_pred _ _ _ hf]
  cases h : l.find? pr with
  | none => rfl
  | some a =>
    have ha : pr a = true := List.find?_some h
    simp [hfix a ha]

/-- A successful completion of player `pid` does not change any other
player's row, nor any other player's completion rows. -/
theorem completePlayerCareer_ok_other (nowMs : Int) (pid x : Nat) (db : Db)
    (r : CompleteResult) (db' : Db) (hne : x ≠ pid)
    (h : completePlayerCareer nowMs pid db = .ok (r, db')) :
    db'.players.find? (fun q => q.id == x) =
      db.players.find? (fun q => q.id == x) ∧
    db'.career_completions.filter (fun c => c.player_id == x) =
      db.career_completions.filter (fun c => c.player_id == x) := by
  have hmap : (db.players.map (fun q => if q.id == pid then
      { q with career_status := "completed" } else q)).find?
        (fun q => q.id == x) = db.players.find? (fun q => q.id == x) := by
    apply find?_map_of_fixed
    · intro q
      by_cases hq : (q.id == pid) = true
      · simp [hq]
      · simp only [Bool.not_eq_true] at hq
        simp [hq]
    · intro q hq
      have hqx : q.id = x := by simpa using hq
      have hq' : (q.id == pid) = false := by
        simp only [beq_eq_false_iff_ne, ne_eq, hqx]
        exact hne
      simp [hq']
  unfold completePlayerCareer at h
  dsimp only at h
  split at h
  · cases h
  · rename_i player hfindp
    split at h
    · cases h
      exact ⟨rfl, rfl⟩
    · have hrow : ∀ (c : CareerCompletion), c.player_id = pid →
          (c.player_id == x) = false := by
        intro c hc
        simp only [beq_eq_false_iff_ne, ne_eq, hc]
        exact fun hh => hne hh.symm
      have happ : ∀ (cs : List CareerCompletion) (c : CareerCompletion),
          c.player_id = pid →
          (cs ++ [c]).filter (fun c => c.player_id == x) =
            cs.filter (fun c => c.player_id == x) := by
        intro cs c hc
        rw [List.filter_append]
        simp [List.filter, hrow c hc]
      split at h
      · cases h
      · split at h
        · cases h
          exact ⟨hmap, rfl⟩
        · split at h
          · cases h
            exact ⟨hmap, happ _ _ rfl⟩
          · cases h
            exact ⟨hmap, happ _ _ rfl⟩

/-- Phase 4 over a queue that does not contain player `x` preserves `x`'s
player row and completion rows. -/
theorem sweepCompletions_other (nowMs : Int) (x : Nat) :
    ∀ (l : List Player) (db : Db), (∀ q ∈ l, q.id ≠ x) →
      (sweepCompletions nowMs l db).2.2.players.find? (fun q => q.id == x) =
        db.players.find? (fun q => q.id == x) ∧
      (sweepCompletions nowMs l db).2.2.career_completions.filter
          (fun c => c.player_id == x) =
        db.career_completions.filter (fun c => c.player_id == x) := by
  intro l
  induction l with
  | nil => intro db _; exact ⟨rfl, rfl⟩
  | cons p rest ih =>
    intro db hl
    have hpx : x ≠ p.id := fun hh => (hl p (List.mem_cons_self p rest)) hh.symm
    have hrest : ∀ q ∈ rest, q.id ≠ x := fun q hq => hl q (List.mem_cons_of_mem p hq)
    unfold sweepCompletions
    cases h : completePlayerCareer nowMs p.id db with
    | ok y =>
      obtain ⟨r, db'⟩ := y
      obtain ⟨h1, h2⟩ := completePlayerCareer_ok_other nowMs p.id x db r db' hpx h
      obtain ⟨ih1, ih2⟩ := ih db' hrest
      exact ⟨ih1.trans h1, ih2.trans h2⟩
    | error e => exact ih db hrest

/-- In a list whose ids are distinct, `find?` by a member's id returns
that member. -/
theorem find?_eq_some_self_of_nodup (l : List Player) (p : Player)
    (hmem : p ∈ l) (hnodup : (l.map (fun q => q.id)).Nodup) :
    l.find? (fun q => q.id == p.id) = some p := by
  induction l with
  | nil => cases hmem
  | cons a t ih =>
    rw [List.map_cons] at hnodup
    have hn := List.nodup_cons.mp hnodup
    by_cases ha : (a.id == p.id) = true
    · have haid : a.id = p.id := by simpa using ha
      have hap : a = p := by
        rcases List.mem_cons.mp hmem with hh | hpt
        · exact hh.symm
        · exact absurd (haid ▸ List.mem_map_of_mem (fun q => q.id) hpt) hn.1
      subst hap
      simp [List.find?, ha]
    · have ha' : (a.id == p.id) = false := by
        cases hb : (a.id == p.id)
        · rfl
        · exact absurd hb ha
      have hpt : p ∈ t := by
        rcases List.mem_cons.mp hmem with hh | hpt
        · subst hh; exact absurd (by simp) ha
        · exact hpt
      simp [List.find?, ha', ih hpt hn.2]

/-- The batched promotion is a pointwise map, so `find?` commutes with it. -/
theorem batchPromote_find? (target : String) (ids : List Nat) (l : List Player)
    (x : Nat) :
    (batchPromote target ids l).find? (fun q => q.id == x) =
      (l.find? (fun q => q.id == x)).map (fun q =>
        if ids.contains q.id && q.career_status == "active" then
          { q with current_league := target } else q) := by
  unfold batchPromote
  apply find?_map_pred
  intro q
  by_cases hq : (ids.contains q.id && q.career_status == "active") = true
  · rw [if_pos hq]
  · rw [if_neg hq]

-- ── C8 ─────────────────────────────────────────────────────────────────

/-- C8: within a single sweep run each player advances at most one tier.
Classification uses the `current_league` loaded at the start of the run,
so an active `league_two` player — whatever the rating, even far above
every threshold — ends the run in `league_one` when rating ≥ 70 (and
stays in `league_two` otherwise), is still `active`, and gains no
`career_completions` row in that same run. -/
theorem runTransferSweep_single_tier (db : Db) (today : Nat) (nowMs : Int)
    (p : Player)
    (hmem : p ∈ db.players)
    (hnodup : (db.players.map (fun q => q.id)).Nodup)
    (hact : p.career_status = "active")
    (hlg : p.current_league = "league_two")
    (hdue : today % 4 = 0)
    (hnew : db.sweep_state.last_sweep_utc_day ≠ some today) :
    ((runTransferSweep false today nowMs db).2).players.find?
        (fun q => q.id == p.id) =
      some { p with current_league :=
        if 70 ≤ p.overall_rating then "league_one" else "league_two" } ∧
    ((runTransferSweep false today nowMs db).2).career_completions.filter
        (fun c => c.player_id == p.id) =
      db.career_completions.filter (fun c => c.player_id == p.id) := by
  have hcond : (!false && (!(today % 4 == 0) ||
      (db.sweep_state.last_sweep_utc_day == some today))) = false := by
    have h1 : (today % 4 == 0) = true := by simp [hdue]
    have h2 : (db.sweep_state.last_sweep_utc_day == some today) = false := by
      simp only [beq_eq_false_iff_ne, ne_eq]
      exact hnew
    simp [h1, h2]
  have hrun : runTransferSweep false today nowMs db =
      sweepExecute false today nowMs db := by
    unfold runTransferSweep
    simp only [hcond, Bool.false_eq_true, if_false]
  have hplayers : ((sweepExecute false today nowMs db).2).players =
      batchPromote "championship"
        (sweepPromotionIds "championship"
          (sweepToPromote (sweepActive (sweepStamp today nowMs db))))
        (batchPromote "league_one"
          (sweepPromotionIds "league_one"
            (sweepToPromote (sweepActive (sweepStamp today nowMs db))))
          (sweepCompletions nowMs
            (sweepToComplete (sweepActive (sweepStamp today nowMs db)))
            (sweepStamp today nowMs db)).2.2.players) := rfl
  have hcompl : ((sweepExecute false today nowMs db).2).career_completions =
      (sweepCompletions nowMs
        (sweepToComplete (sweepActive (sweepStamp today nowMs db)))
        (sweepStamp today nowMs db)).2.2.career_completions := rfl
  have hinj := List.inj_on_of_nodup_map hnodup
  have hmemA : p ∈ sweepActive (sweepStamp today nowMs db) := by
    show p ∈ List.filter (fun q => q.career_status == "active") db.players
    exact List.mem_filter.mpr ⟨hmem, by simp [hact]⟩
  have hsubA : ∀ q ∈ sweepActive (sweepStamp today nowMs db), q ∈ db.players := by
    intro q hq
    have hq' : q ∈ List.filter (fun r => r.career_status == "active")
      db.players := hq
    exact (List.mem_filter.mp hq').1
  have htcne : ∀ q ∈ sweepToComplete (sweepActive (sweepStamp today nowMs db)),
      q.id ≠ p.id := by
    intro q hq hqp
    have hq' : q ∈ List.filter
        (fun r => sweepQualifies r && r.current_league == "championship")
        (sweepActive (sweepStamp today nowMs db)) := hq
    obtain ⟨hqA, hqpred⟩ := List.mem_filter.mp hq'
    rw [Bool.and_eq_true] at hqpred
    have hqc : q.current_league = "championship" := by
      have h := hqpred.2
      simpa using h
    have hqdb : q ∈ db.players := hsubA q hqA
    have hqeq : q = p := hinj hqdb hmem hqp
    rw [hqeq, hlg] at hqc
    exact absurd hqc (by decide)
  have hfind0 : db.players.find? (fun q => q.id == p.id) = some p :=
    find?_eq_some_self_of_nodup db.players p hmem hnodup
  obtain ⟨hp4, hc4⟩ := sweepCompletions_other nowMs p.id
    (sweepToComplete (sweepActive (sweepStamp today nowMs db)))
    (sweepStamp today nowMs db) htcne
  have hp4' : (sweepCompletions nowMs
      (sweepToComplete (sweepActive (sweepStamp today nowMs db)))
      (sweepStamp today nowMs db)).2.2.players.find? (fun q => q.id == p.id) =
      some p := by
    rw [hp4]
    exact hfind0
  have hc4' : (sweepCompletions nowMs
      (sweepToComplete (sweepActive (sweepStamp today nowMs db)))
      (sweepStamp today nowMs db)).2.2.career_completions.filter
        (fun c => c.player_id == p.id) =
      db.career_completions.filter (fun c => c.player_id == p.id) := by
    rw [hc4]
    rfl
  have hq_p : sweepQualifies p = decide (70 ≤ p.overall_rating) := by
    unfold sweepQualifies
    rw [hlg]
    rfl
  have hnext_p : LEAGUE_NEXT p.current_league = some "league_one" := by
    rw [hlg]
    rfl
  have hin_ids : ∀ (target : String) (x : Nat),
      ((sweepPromotionIds target
        (sweepToPromote (sweepActive (sweepStamp today nowMs db)))).contains x)
        = true →
      ∃ q, q ∈ db.players ∧ sweepQualifies q = true ∧
        (LEAGUE_NEXT q.current_league == some target) = true ∧ q.id = x := by
    intro target x hx
    have hx' := List.elem_iff.mp hx
    have hx'' : x ∈ (List.filter
        (fun q => LEAGUE_NEXT q.current_league == some target)
        (sweepToPromote (sweepActive (sweepStamp today nowMs db)))).map
          (fun q => q.id) := hx'
    obtain ⟨q, hqf, hqid⟩ := List.mem_map.mp hx''
    obtain ⟨hqTP, hqnext⟩ := List.mem_filter.mp hqf
    have hqTP' : q ∈ List.filter
        (fun r => sweepQualifies r && !(r.current_league == "championship"))
        (sweepActive (sweepStamp today nowMs db)) := hqTP
    obtain ⟨hqA, hqpred⟩ := List.mem_filter.mp hqTP'
    rw [Bool.and_eq_true] at hqpred
    exact ⟨q, hsubA q hqA, hqpred.1, hqnext, hqid⟩
  have hc2 : ((sweepPromotionIds "championship"
      (sweepToPromote (sweepActive (sweepStamp today nowMs db)))).contains p.id)
      = false := by
    rw [Bool.eq_false_iff]
    intro hx
    obtain ⟨q, hqdb, -, hqnext, hqid⟩ := hin_ids "championship" p.id hx
    have hqeq : q = p := hinj hqdb hmem hqid
    rw [hqeq, hnext_p] at hqnext
    exact absurd hqnext (by decide)
  refine ⟨?_, ?_⟩
  · rw [hrun, hplayers, batchPromote_find?, batchPromote_find?, hp4']
    dsimp only [Option.map]
    by_cases hr : 70 ≤ p.overall_rating
    · have hqual : sweepQualifies p = true := by
        rw [hq_p]
        exact decide_eq_true hr
      have hmemTP : p ∈ sweepToPromote (sweepActive (sweepStamp today nowMs db)) := by
        show p ∈ List.filter
          (fun r => sweepQualifies r && !(r.current_league == "championship"))
          (sweepActive (sweepStamp today nowMs db))
        refine List.mem_filter.mpr ⟨hmemA, ?_⟩
        rw [Bool.and_eq_true]
        exact ⟨hqual, by simp [hlg]⟩
      have hc1 : ((sweepPromotionIds "league_one"
          (sweepToPromote (sweepActive (sweepStamp today nowMs db)))).contains p.id)
          = true := by
        apply List.elem_iff.mpr
        show p.id ∈ (List.filter
          (fun q => LEAGUE_NEXT q.current_league == some "league_one")
          (sweepToPromote (sweepActive (sweepStamp today nowMs db)))).map
            (fun q => q.id)
        exact List.mem_map_of_mem _
          (List.mem_filter.mpr ⟨hmemTP, by rw [hnext_p]; rfl⟩)
      have hm1 : p.id ∈ sweepPromotionIds "league_one"
          (sweepToPromote (sweepActive (sweepStamp today nowMs db))) :=
        List.elem_iff.mp hc1
      have hm2 : p.id ∉ sweepPromotionIds "championship"
          (sweepToPromote (sweepActive (sweepStamp today nowMs db))) := by
        intro hx
        have hx' : ((sweepPromotionIds "championship"
            (sweepToPromote (sweepActive (sweepStamp today nowMs db)))).contains
              p.id) = true := List.elem_iff.mpr hx
        rw [hx'] at hc2
        cases hc2
      simp [hm1, hm2, hact, hr]
    · have hc1 : ((sweepPromotionIds "league_one"
          (sweepToPromote (sweepActive (sweepStamp today nowMs db)))).contains p.id)
          = false := by
        rw [Bool.eq_false_iff]
        intro hx
        obtain ⟨q, hqdb, hqqual, -, hqid⟩ := hin_ids "league_one" p.id hx
        have hqeq : q = p := hinj hqdb hmem hqid
        rw [hqeq, hq_p] at hqqual
        exact hr (of_decide_eq_true hqqual)
      have hm1 : p.id ∉ sweepPromotionIds "league_one"
          (sweepToPromote (sweepActive (sweepStamp today nowMs db))) := by
        intro hx
        have hx' : ((sweepPromotionIds "league_one"
            (sweepToPromote (sweepActive (sweepStamp today nowMs db)))).contains
              p.id) = true := List.elem_iff.mpr hx
        rw [hx'] at hc1
        cases hc1
      have hm2 : p.id ∉ sweepPromotionIds "championship"
          (sweepToPromote (sweepActive (sweepStamp today nowMs db))) := by
        intro hx
        have hx' : ((sweepPromotionIds "championship"
            (sweepToPromote (sweepActive (sweepStamp today nowMs db)))).contains
              p.id) = true := List.elem_iff.mpr hx
        rw [hx'] at hc2
        cases hc2
      simp only [hm1, hm2, hr, if_false, if_neg hr]
      simp [hm1, hm2]
      rw [← hlg]
  · rw [hrun, hcompl]
    exact hc4'

/-- An active `league_two` player with a rating far above every
threshold. -/
def examplePlayerTwo : Player :=
  { id := 2, user_id := 11, display_name := some "B", overall_rating := 90,
    current_league := "league_two", career_status := "active",
    career_started_at := 0 }

/-- Store holding the championship player and the `league_two` player. -/
def exampleDbSweep : Db :=
  { exampleDb with players := [examplePlayer, examplePlayerTwo] }

/-- Witness for C8: on a due day the rating-90 `league_two` player is
promoted to `league_one` only, stays active, and gains no completion
row. -/
theorem runTransferSweep_single_tier_witness :
    ((runTransferSweep false 8 5 exampleDbSweep).2).players.find?
        (fun q => q.id == examplePlayerTwo.id) =
      some { examplePlayerTwo with current_league :=
        if 70 ≤ examplePlayerTwo.overall_rating then "league_one"
        else "league_two" } ∧
    ((runTransferSweep false 8 5 exampleDbSweep).2).career_completions.filter
        (fun c => c.player_id == examplePlayerTwo.id) =
      exampleDbSweep.career_completions.filter
        (fun c => c.player_id == examplePlayerTwo.id) :=
  runTransferSweep_single_tier exampleDbSweep 8 5 examplePlayerTwo
    (by decide) (by decide) (by decide) (by decide) (by decide) (by decide)

-- ── C6 ─────────────────────────────────────────────────────────────────

/-- The member upsert returns the conflicting row with only `status`
rewritten. -/
theorem upsertMemberActive_find? (members : List SquadMember)
    (squadId userId : Nat) (role : String) (m : SquadMember)
    (hm : members.find? (fun r => r.squad_id == squadId && r.user_id == userId) =
      some m) :
    (upsertMemberActive members squadId userId role).find?
        (fun r => r.squad_id == squadId && r.user_id == userId) =
      some { m with status := "active" } := by
  have hkey : ((fun r : SquadMember =>
      r.squad_id == squadId && r.user_id == userId) m) = true := by
    have h := List.find?_some (p := fun r : SquadMember =>
      r.squad_id == squadId && r.user_id == userId) hm
    exact h
  have hany : (members.any
      (fun r => r.squad_id == squadId && r.user_id == userId)) = true := by
    rw [List.any_eq_true]
    exact ⟨m, List.mem_of_find?_eq_some hm, hkey⟩
  unfold upsertMemberActive
  rw [if_pos hany, find?_map_pred]
  · rw [hm]
    dsimp only [Option.map]
    rw [if_pos hkey]
  · intro x
    by_cases hx : (x.squad_id == squadId && x.user_id == userId) = true
    · rw [if_pos hx]
    · rw [if_neg hx]

/-- A small squad store: open squad 1 with 20 unspent points, its four
facilities at level 0, user 10 as active leader, user 11 as an inactive
former leader with 7 contributed points, user 99 as active co-leader, and
a pending join request of user 11. -/
def exampleSquadDb : Db :=
  { players := [], career_completions := [], coach_stats := [],
    squads := [{ id := 1, name := "S", privacy := "open", leader_user_id := 10,
                 total_points := 20, unspent_points := 20, level := 1 }],
    squad_members :=
      [{ squad_id := 1, user_id := 10, role := "leader",
         points_contributed := 0, status := "active" },
       { squad_id := 1, user_id := 99, role := "co_leader",
         points_contributed := 2, status := "active" },
       { squad_id := 1, user_id := 11, role := "leader",
         points_contributed := 7, status := "inactive" }],
    squad_join_requests :=
      [{ id := 5, squad_id := 1, user_id := 11, status := "pending",
         resolved_by := none }],
    squad_facilities :=
      [{ squad_id := 1, facility_type := "training_equipment", level := 0 },
       { squad_id := 1, facility_type := "spa", level := 0 },
       { squad_id := 1, facility_type := "analysis_room", level := 0 },
       { squad_id := 1, facility_type := "medical_center", level := 0 }],
    squad_point_events := [], squad_spend_transactions := [],
    sweep_state := { last_sweep_utc_day := none, last_sweep_at := none,
                     run_count := 0 } }

/-- C6: `upgradeSquadFacility` charges `base_cost[type] · (level + 1)`
with base costs 5/8/6/7, fails with "Insufficient points" whenever
`unspent_points < cost`, and on success bumps the facility level by one,
deducts exactly the cost, and sets the squad level to
`computeSquadLevel` of the updated facility rows — `1 + ⌊Σ levels / 4⌋`.
The final conjunct replays the spec's concrete scenario: from 20 unspent
points, two successive `training_equipment` upgrades cost 5 then 10 and
leave 15 then 5 points with the squad still at level 1. -/
theorem upgradeSquadFacility_cost_effects (db : Db) (userId squadId : Nat)
    (ft : String) (squad : CoachingSquad) (facility : SquadFacility) (cost : Int)
    (hft : FACILITY_TYPES.contains ft = true)
    (hleader : isLeaderOrCoLeader db.squad_members userId squadId = true)
    (hsquad : db.squads.find? (fun s => s.id == squadId) = some squad)
    (hfac : db.squad_facilities.find? (fun f =>
        f.squad_id == squadId && f.facility_type == ft) = some facility)
    (hcost : upgradeCost ft facility.level = some cost) :
    (∀ l : Int, upgradeCost "training_equipment" l = some (5 * (l + 1)) ∧
       upgradeCost "spa" l = some (8 * (l + 1)) ∧
       upgradeCost "analysis_room" l = some (6 * (l + 1)) ∧
       upgradeCost "medical_center" l = some (7 * (l + 1))) ∧
    (squad.unspent_points < cost →
       upgradeSquadFacility userId squadId ft db =
         .error ("Insufficient points")) ∧
    (¬ squad.unspent_points < cost →
       ∃ db' s', upgradeSquadFacility userId squadId ft db = .ok db' ∧
         db'.squad_facilities.find? (fun f =>
             f.squad_id == squadId && f.facility_type == ft) =
           some { facility with level := facility.level + 1 } ∧
         db'.squads.find? (fun s => s.id == squadId) = some s' ∧
         s'.unspent_points = squad.unspent_points - cost ∧
         s'.level = computeSquadLevel db'.squad_facilities squadId ∧
         s'.total_points = squad.total_points) ∧
    (((upgradeSquadFacility 10 1 "training_equipment" exampleSquadDb).toOption.bind
        (fun d1 => (upgradeSquadFacility 10 1 "training_equipment" d1).toOption.map
          (fun d2 =>
            ((d1.squads.find? (fun s => s.id == 1)).map
               (fun s => (s.unspent_points, s.level)),
             (d1.squad_facilities.find? (fun f =>
                f.squad_id == 1 && f.facility_type == "training_equipment")).map
               (fun f => f.level),
             (d2.squads.find? (fun s => s.id == 1)).map
               (fun s => (s.unspent_points, s.level)),
             (d2.squad_facilities.find? (fun f =>
                f.squad_id == 1 && f.facility_type == "training_equipment")).map
               (fun f => f.level))))) =
      some (some (15, 1), some 1, some (5, 1), some 2)) := by
  have hft' : (!(FACILITY_TYPES.contains ft)) = false := by rw [hft]; rfl
  have hleader' : (!(isLeaderOrCoLeader db.squad_members userId squadId)) = false := by
    rw [hleader]; rfl
  refine ⟨?_, ?_, ?_, by decide⟩
  · intro l
    refine ⟨rfl, rfl, rfl, rfl⟩
  · intro hlt
    unfold upgradeSquadFacility
    rw [hft', hleader']
    simp only [Bool.false_eq_true, if_false, hsquad, hfac, hcost]
    rw [if_pos hlt]
  · intro hge
    unfold upgradeSquadFacility
    rw [hft', hleader']
    simp only [Bool.false_eq_true, if_false, hsquad, hfac, hcost]
    rw [if_neg hge]
    have hfkey : ((fun f : SquadFacility =>
        f.squad_id == squadId && f.facility_type == ft) facility) = true := by
      have h := List.find?_some (p := fun f : SquadFacility =>
        f.squad_id == squadId && f.facility_type == ft) hfac
      exact h
    have hskey : ((fun s : CoachingSquad => s.id == squadId) squad) = true := by
      have h := List.find?_some (p := fun s : CoachingSquad => s.id == squadId)
        hsquad
      exact h
    have hfacfind : (db.squad_facilities.map (fun f =>
        if f.squad_id == squadId && f.facility_type == ft then
          { f with level := f.level + 1 } else f)).find? (fun f =>
          f.squad_id == squadId && f.facility_type == ft) =
        some { facility with level := facility.level + 1 } := by
      rw [find?_map_pred]
      · rw [hfac]
        dsimp only [Option.map]
        rw [if_pos hfkey]
      · intro x
        by_cases hx : (x.squad_id == squadId && x.facility_type == ft) = true
        · rw [if_pos hx]
        · rw [if_neg hx]
    have hsqfind : (db.squads.map (fun s =>
        if s.id == squadId then
          { s with unspent_points := s.unspent_points - cost,
                   level := computeSquadLevel (db.squad_facilities.map (fun f =>
                     if f.squad_id == squadId && f.facility_type == ft then
                       { f with level := f.level + 1 } else f)) squadId }
        else s)).find? (fun s => s.id == squadId) =
        some { squad with unspent_points := squad.unspent_points - cost,
                          level := computeSquadLevel
                            (db.squad_facilities.map (fun f =>
                              if f.squad_id == squadId && f.facility_type == ft
                              then { f with level := f.level + 1 } else f))
                            squadId } := by
      rw [find?_map_pred]
      · rw [hsquad]
        dsimp only [Option.map]
        rw [if_pos hskey]
      · intro x
        by_cases hx : (x.id == squadId) = true
        · rw [if_pos hx]
        · rw [if_neg hx]
    exact ⟨_, _, rfl, hfacfind, hsqfind, rfl, rfl, rfl⟩

/-- The concrete squad row of `exampleSquadDb`. -/
def exampleSquadRow : CoachingSquad :=
  { id := 1, name := "S", privacy := "open", leader_user_id := 10,
    total_points := 20, unspent_points := 20, level := 1 }

/-- The concrete training-equipment facility row of `exampleSquadDb`. -/
def exampleFacilityRow : SquadFacility :=
  { squad_id := 1, facility_type := "training_equipment", level := 0 }

/-- Witness for C6 at the concrete squad store (training_equipment at
level 0, cost 5, 20 unspent points). -/
theorem upgradeSquadFacility_cost_effects_witness :
    ∃ db' s', upgradeSquadFacility 10 1 "training_equipment" exampleSquadDb =
        .ok db' ∧
      db'.squad_facilities.find? (fun f =>
          f.squad_id == 1 && f.facility_type == "training_equipment") =
        some { exampleFacilityRow with level := exampleFacilityRow.level + 1 } ∧
      db'.squads.find? (fun s => s.id == 1) = some s' ∧
      s'.unspent_points = exampleSquadRow.unspent_points - 5 ∧
      s'.level = computeSquadLevel db'.squad_facilities 1 ∧
      s'.total_points = exampleSquadRow.total_points := by
  obtain ⟨-, -, h3, -⟩ := upgradeSquadFacility_cost_effects exampleSquadDb 10 1
    "training_equipment" exampleSquadRow exampleFacilityRow 5
    (by decide) (by decide) (by decide) (by decide) (by decide)
  exact h3 (by decide)

-- ── C9 ─────────────────────────────────────────────────────────────────

/-- C9: when a user with an inactive membership row rejoins the same
squad — by open join or by an approved join request — the existing row is
reactivated by setting `status = 'active'` only: its previous `role` and
`points_contributed` survive, so a former leader returns as leader with
the prior contribution total intact. -/
theorem squad_rejoin_preserves_role_points (db : Db) (squadId userId : Nat)
    (m : SquadMember) (squad : CoachingSquad) (request : SquadJoinRequest)
    (resolver : Nat)
    (hm : db.squad_members.find?
        (fun r => r.squad_id == squadId && r.user_id == userId) = some m)
    (hnoactive : getUserActiveMembership db.squad_members userId = none)
    (hsquad : db.squads.find? (fun s => s.id == squadId) = some squad)
    (hopen : squad.privacy = "open")
    (hreq : db.squad_join_requests.find? (fun r => r.id == request.id) =
      some request)
    (hreqsq : request.squad_id = squadId) (hrequ : request.user_id = userId)
    (hpending : request.status = "pending")
    (hresolver : isLeaderOrCoLeader db.squad_members resolver squadId = true) :
    (∃ db', joinOpenSquad userId squadId db = .ok db' ∧
       db'.squad_members.find?
           (fun r => r.squad_id == squadId && r.user_id == userId) =
         some { m with status := "active" }) ∧
    (∃ db', resolveSquadJoinRequest request.id resolver "approve" db = .ok db' ∧
       db'.squad_members.find?
           (fun r => r.squad_id == squadId && r.user_id == userId) =
         some { m with status := "active" }) := by
  have hupsert := upsertMemberActive_find? db.squad_members squadId userId
    "member" m hm
  have hisSome : (getUserActiveMembership db.squad_members userId).isSome
      = false := by
    rw [hnoactive]
    rfl
  have hprivacy : (!(squad.privacy == "open")) = false := by
    rw [hopen]
    rfl
  constructor
  · unfold joinOpenSquad
    rw [hisSome]
    simp only [Bool.false_eq_true, if_false, hsquad]
    rw [hprivacy]
    simp only [Bool.false_eq_true, if_false]
    exact ⟨_, rfl, hupsert⟩
  · unfold resolveSquadJoinRequest
    rw [hreq]
    have hpend : (!(request.status == "pending")) = false := by
      rw [hpending]
      rfl
    have hres : (!(isLeaderOrCoLeader db.squad_members resolver
        request.squad_id)) = false := by
      rw [hreqsq, hresolver]
      rfl
    have hisSome' : (getUserActiveMembership db.squad_members
        request.user_id).isSome = false := by
      rw [hrequ, hnoactive]
      rfl
    simp only [hpend, hres, hisSome', Bool.false_eq_true, if_false]
    rw [hreqsq, hrequ]
    exact ⟨_, rfl, hupsert⟩

/-- Witness for C9 at the concrete squad store: user 11, an inactive
former leader with 7 contributed points, rejoins squad 1 by both paths
and returns as an active leader with the 7 points intact. -/
theorem squad_rejoin_preserves_role_points_witness :
    (∃ db', joinOpenSquad 11 1 exampleSquadDb = .ok db' ∧
       db'.squad_members.find?
           (fun r => r.squad_id == 1 && r.user_id == 11) =
         some { squad_id := 1, user_id := 11, role := "leader",
                points_contributed := 7, status := "active" }) ∧
    (∃ db', resolveSquadJoinRequest 5 99 "approve" exampleSquadDb = .ok db' ∧
       db'.squad_members.find?
           (fun r => r.squad_id == 1 && r.user_id == 11) =
         some { squad_id := 1, user_id := 11, role := "leader",
                points_contributed := 7, status := "active" }) :=
  squad_rejoin_preserves_role_points exampleSquadDb 1 11
    { squad_id := 1, user_id := 11, role := "leader",
      points_contributed := 7, status := "inactive" }
    exampleSquadRow
    { id := 5, squad_id := 1, user_id := 11, status := "pending",
      resolved_by := none }
    99
    (by decide) (by decide) (by decide) (by decide) (by decide) (by decide)
    (by decide) (by decide) (by decide)

-- ── C5 ─────────────────────────────────────────────────────────────────

/-- A fixture with its status column blanked: the part of the row the
step-5 `upcoming` classification is allowed to depend on. -/
def fixtureCore (f : Fixture) : Fixture := { f with status := "" }

/-- Two fixtures are status variants when they are equal, or both are
unplayed by fields (no `played_at`, no goals), neither carries the
`'PLAYED'` status, and they differ at most in their status string
(e.g. `'UPCOMING'` versus `'SCHEDULED'`). -/
def statusVariantB (f g : Fixture) : Bool :=
  f == g ||
  (f.played_at == none && f.home_goals == none && f.away_goals == none &&
   !(f.status == "PLAYED") && !(g.status == "PLAYED") &&
   fixtureCore f == fixtureCore g)

/-- Pointwise status-variance of two fixture lists. -/
def statusVariantList : List Fixture → List Fixture → Bool
  | [], [] => true
  | f :: fs, g :: gs => statusVariantB f g && statusVariantList fs gs
  | _, _ => false

/-- Status variants classify identically, agree whenever played, and
share every non-status field. -/
theorem statusVariantB_spec (f g : Fixture) (h : statusVariantB f g = true) :
    isUpcoming f = isUpcoming g ∧ isPlayed f = isPlayed g ∧
    (isPlayed f = true → f = g) ∧ fixtureCore f = fixtureCore g := by
  unfold statusVariantB at h
  rcases Bool.or_eq_true_iff.mp h with h1 | h2
  · have : f = g := eq_of_beq h1
    subst this
    exact ⟨rfl, rfl, fun _ => rfl, rfl⟩
  · simp only [Bool.and_eq_true, beq_iff_eq, Bool.not_eq_true',
      beq_eq_false_iff_ne, ne_eq] at h2
    obtain ⟨⟨⟨⟨⟨hpa, hhg⟩, hag⟩, hfs⟩, hgs⟩, hcore⟩ := h2
    have hgpa : g.played_at = none := by
      have := congrArg Fixture.played_at hcore
      simp only [fixtureCore] at this
      rw [← this]
      exact hpa
    have hghg : g.home_goals = none := by
      have := congrArg Fixture.home_goals hcore
      simp only [fixtureCore] at this
      rw [← this]
      exact hhg
    have hgag : g.away_goals = none := by
      have := congrArg Fixture.away_goals hcore
      simp only [fixtureCore] at this
      rw [← this]
      exact hag
    refine ⟨?_, ?_, ?_, hcore⟩
    · simp [isUpcoming, hpa, hhg, hag, hgpa, hghg, hgag]
    · simp [isPlayed, hpa, hgpa, hfs, hgs]
    · intro habs
      rw [show isPlayed f = false by simp [isPlayed, hpa, hfs]] at habs
      cases habs

/-- The filters of step 5 cannot tell status-variant fixture lists
apart: the played lists are equal, and the upcoming lists agree on every
non-status field (in particular on ids and length). -/
theorem statusVariantList_filters :
    ∀ (xs ys : List Fixture), statusVariantList xs ys = true →
      xs.filter isPlayed = ys.filter isPlayed ∧
      (xs.filter isUpcoming).map fixtureCore =
        (ys.filter isUpcoming).map fixtureCore ∧
      (xs.filter isUpcoming).map (fun f => f.id) =
        (ys.filter isUpcoming).map (fun f => f.id) := by
  intro xs
  induction xs with
  | nil =>
    intro ys h
    cases ys with
    | nil => exact ⟨rfl, rfl, rfl⟩
    | cons g gs => cases h
  | cons f fs ih =>
    intro ys h
    cases ys with
    | nil => cases h
    | cons g gs =>
      rw [show statusVariantList (f :: fs) (g :: gs) =
        (statusVariantB f g && statusVariantList fs gs) from rfl,
        Bool.and_eq_true] at h
      obtain ⟨hfg, hrest⟩ := h
      obtain ⟨hup, hpl, hplay_eq, hcore⟩ := statusVariantB_spec f g hfg
      obtain ⟨ih1, ih2, ih3⟩ := ih gs hrest
      have hid : f.id = g.id := by
        have := congrArg Fixture.id hcore
        simpa [fixtureCore] using this
      refine ⟨?_, ?_, ?_⟩
      · by_cases hp : isPlayed f = true
        · have hfgeq := hplay_eq hp
          rw [List.filter_cons, List.filter_cons, hfgeq, ih1]
        · have hp' : isPlayed f = false := by
            cases hb : isPlayed f
            · rfl
            · exact absurd hb hp
          rw [List.filter_cons, List.filter_cons, ← hpl, hp', ih1]
          rfl
      · by_cases hu : isUpcoming f = true
        · rw [List.filter_cons, List.filter_cons, ← hup, hu]
          simp [hcore, ih2]
        · have hu' : isUpcoming f = false := by
            cases hb : isUpcoming f
            · rfl
            · exact absurd hb hu
          rw [List.filter_cons, List.filter_cons, ← hup, hu']
          simp [ih2]
      · by_cases hu : isUpcoming f = true
        · rw [List.filter_cons, List.filter_cons, ← hup, hu]
          simp [hid, ih3]
        · have hu' : isUpcoming f = false := by
            cases hb : isUpcoming f
            · rfl
            · exact absurd hb hu
          rw [List.filter_cons, List.filter_cons, ← hup, hu']
          simp [ih3]

/-- C5: the simulator's fixture classification does not depend on the
particular status string of an unplayed fixture.  For two fixture lists
that are pointwise status variants, the played sets are equal, the
upcoming sets coincide on every non-status field (ids included), and the
simulate / short-circuit / abort decision of steps 5 to 7 is
identical. -/
theorem classifyDecision_status_independent (xs ys : List Fixture)
    (h : statusVariantList xs ys = true) :
    xs.filter isPlayed = ys.filter isPlayed ∧
    (xs.filter isUpcoming).map fixtureCore =
      (ys.filter isUpcoming).map fixtureCore ∧
    (xs.filter isUpcoming).map (fun f => f.id) =
      (ys.filter isUpcoming).map (fun f => f.id) ∧
    classifyDecision xs = classifyDecision ys := by
  obtain ⟨h1, h2, h3⟩ := statusVariantList_filters xs ys h
  have hplen : (xs.filter isPlayed).length = (ys.filter isPlayed).length := by
    rw [h1]
  have hulen : (xs.filter isUpcoming).length =
      (ys.filter isUpcoming).length := by
    have := congrArg List.length h2
    simpa [List.length_map] using this
  refine ⟨h1, h2, h3, ?_⟩
  unfold classifyDecision
  dsimp only
  rw [hplen, hulen]

/-- An unplayed fixture stored with status UPCOMING. -/
def fixtureUpcomingEx : Fixture :=
  { id := 1, season_id := 1, matchday := 3, home_club_id := 1,
    away_club_id := 2, home_goals := none, away_goals := none,
    status := "UPCOMING", played_at := none }

/-- The same unplayed fixture stored with status SCHEDULED. -/
def fixtureScheduledEx : Fixture := { fixtureUpcomingEx with status := "SCHEDULED" }

/-- A played fixture. -/
def fixturePlayedEx : Fixture :=
  { id := 2, season_id := 1, matchday := 3, home_club_id := 3,
    away_club_id := 4, home_goals := some 1, away_goals := some 0,
    status := "PLAYED", played_at := some 9 }

/-- Witness for C5: an UPCOMING row versus a SCHEDULED row next to an
identical PLAYED row classify and decide identically. -/
theorem classifyDecision_status_independent_witness :
    [fixtureUpcomingEx, fixturePlayedEx].filter isPlayed =
      [fixtureScheduledEx, fixturePlayedEx].filter isPlayed ∧
    classifyDecision [fixtureUpcomingEx, fixturePlayedEx] =
      classifyDecision [fixtureScheduledEx, fixturePlayedEx] := by
  obtain ⟨h1, -, -, h4⟩ := classifyDecision_status_independent
    [fixtureUpcomingEx, fixturePlayedEx] [fixtureScheduledEx, fixturePlayedEx]
    (by decide)
  exact ⟨h1, h4⟩

-- ── C4 ─────────────────────────────────────────────────────────────────

/-- Twelve already-played fixtures for matchday 3. -/
def playedFixtures : List Fixture :=
  (List.range 12).map (fun i =>
    { id := i + 1, season_id := 1, matchday := 3, home_club_id := 2 * i,
      away_club_id := 2 * i + 1, home_goals := some 1, away_goals := some 0,
      status := "PLAYED", played_at := some 5 })

/-- An active season sitting at matchday 3. -/
def exampleSeason : Season :=
  { id := 1, current_matchday := 3, status := "active", is_active := true,
    fixtures_generated := true }

/-- A tier whose current matchday is fully played. -/
def exampleTierPlayed : TierState :=
  { season := some exampleSeason, progress := some 3,
    fixtures := playedFixtures, clubs := [], teamSeasons := [],
    nextFixtureId := 100 }

/-- C4 counterexample: with all twelve fixtures played, the upcoming
count is 0 ≠ 12, yet the simulator does not abort — the idempotency
short-circuit advances both `SeasonProgress.current_matchday` and
`Season.current_matchday` to 4. -/
theorem simulateTier_gate_counterexample :
    ((exampleTierPlayed.fixtures.filter (fun f => f.matchday == 3)).filter
      isUpcoming).length = 0 ∧
    (0 : Nat) ≠ 12 ∧
    (simulateTier (fun _ => (0, 0)) 7 exampleTierPlayed).1 =
      .alreadyPlayed 3 ∧
    (simulateTier (fun _ => (0, 0)) 7 exampleTierPlayed).2.progress = some 4 ∧
    ((simulateTier (fun _ => (0, 0)) 7 exampleTierPlayed).2.season).map
      (fun s => s.current_matchday) = some 4 :=
  ⟨by decide, by decide, by decide, by decide, by decide⟩

/-- C4, amended: for a tier with an active season, a valid matchday, a
nonempty fixture fetch, an upcoming count different from twelve **and**
not in the fully-played state (twelve played, zero upcoming), the
simulator records the unplayed-count error for the tier and returns the
state completely unchanged: neither counter advances and no goals are
written. -/
theorem simulateTier_gate (goals : Nat → Nat × Nat) (nowTs : Int)
    (st : TierState) (season : Season) (md : Nat)
    (hseason : st.season = some season)
    (hprog : st.progress = some md)
    (hmd1 : 1 ≤ md) (hmd46 : md ≤ 46)
    (hne : st.fixtures.filter (fun f => f.matchday == md) ≠ [])
    (hup : ((st.fixtures.filter (fun f => f.matchday == md)).filter
      isUpcoming).length ≠ 12)
    (hnot : ¬ (((st.fixtures.filter (fun f => f.matchday == md)).filter
        isPlayed).length = 12 ∧
      ((st.fixtures.filter (fun f => f.matchday == md)).filter
        isUpcoming).length = 0)) :
    simulateTier goals nowTs st =
      (.abortUnplayedCount
        ((st.fixtures.filter (fun f => f.matchday == md)).filter
          isUpcoming).length
        ((st.fixtures.filter (fun f => f.matchday == md)).filter
          isPlayed).length
        (st.fixtures.filter (fun f => f.matchday == md)).length, st) := by
  have hst0 :
      ({ season := some season
         progress := some md
         fixtures := st.fixtures
         clubs := st.clubs
         teamSeasons := st.teamSeasons
         nextFixtureId := st.nextFixtureId } : TierState) = st := by
    rw [← hprog, ← hseason]
  have hcond1 : (((st.fixtures.filter (fun f => f.matchday == md)).filter
      isPlayed).length == 12 &&
      ((st.fixtures.filter (fun f => f.matchday == md)).filter
        isUpcoming).length == 0) = false := by
    rw [Bool.eq_false_iff]
    intro hc
    rw [Bool.and_eq_true] at hc
    exact hnot ⟨by simpa using hc.1, by simpa using hc.2⟩
  have hcond2 : (!(((st.fixtures.filter (fun f => f.matchday == md)).filter
      isUpcoming).length == 12)) = true := by
    have h12 : (((st.fixtures.filter (fun f => f.matchday == md)).filter
        isUpcoming).length == 12) = false := by
      simp only [beq_eq_false_iff_ne, ne_eq]
      exact hup
    rw [h12]
    rfl
  have hdec : classifyDecision (st.fixtures.filter (fun f => f.matchday == md)) =
      .abortGate ((st.fixtures.filter (fun f => f.matchday == md)).filter
        isUpcoming).length := by
    unfold classifyDecision
    dsimp only
    rw [hcond1]
    simp only [Bool.false_eq_true, if_false]
    rw [if_pos hcond2]
  have hempty : (st.fixtures.filter (fun f => f.matchday == md)).isEmpty
      = false := by
    rw [Bool.eq_false_iff]
    intro hc
    exact hne (List.isEmpty_iff.mp hc)
  unfold simulateTier
  rw [hseason]
  dsimp only
  rw [hprog]
  simp only [Option.getD_some]
  rw [if_neg (by omega : ¬ md < 1), if_neg (by omega : ¬ md > 46), hst0,
    hempty]
  simp only [Bool.false_eq_true, if_false]
  unfold simulateMatchdayPhase
  dsimp only
  rw [hdec]

/-- Five upcoming fixtures only for matchday 3. -/
def shortFixtures : List Fixture :=
  (List.range 5).map (fun i =>
    { id := i + 1, season_id := 1, matchday := 3, home_club_id := 2 * i,
      away_club_id := 2 * i + 1, home_goals := none, away_goals := none,
      status := "UPCOMING", played_at := none })

/-- A tier whose current matchday has only five unplayed fixtures. -/
def exampleTierShort : TierState :=
  { season := some exampleSeason, progress := some 3,
    fixtures := shortFixtures, clubs := [], teamSeasons := [],
    nextFixtureId := 100 }

/-- Witness for the amended C4 at the five-fixture tier. -/
theorem simulateTier_gate_witness :
    simulateTier (fun _ => (0, 0)) 7 exampleTierShort =
      (.abortUnplayedCount
        ((exampleTierShort.fixtures.filter (fun f => f.matchday == 3)).filter
          isUpcoming).length
        ((exampleTierShort.fixtures.filter (fun f => f.matchday == 3)).filter
          isPlayed).length
        (exampleTierShort.fixtures.filter (fun f => f.matchday == 3)).length,
       exampleTierShort) :=
  simulateTier_gate (fun _ => (0, 0)) 7 exampleTierShort exampleSeason 3
    (by decide) (by decide) (by decide) (by decide) (by decide) (by decide)
    (by decide)

-- ── C7 SUPPORT ─────────────────────────────────────────────────────────

/-- The clubs of a pairing list in appearance order (home then away). -/
def flattenPairs {α : Type} (ps : List (α × α)) : List α :=
  ps.flatMap (fun p => [p.1, p.2])

/-- `condSwapHead` keeps the number of pairings. -/
theorem condSwapHead_length {α : Type} (b : Bool) (ps : List (α × α)) :
    (condSwapHead b ps).length = ps.length := by
  cases ps <;> rfl

/-- Flattening the zip of two equally long lists is a permutation of
their concatenation. -/
theorem flattenPairs_zip {α : Type} :
    ∀ (l1 l2 : List α), l1.length = l2.length →
      (flattenPairs (l1.zip l2)).Perm (l1 ++ l2) := by
  intro l1
  induction l1 with
  | nil =>
    intro l2 h
    cases l2 with
    | nil => exact List.Perm.refl _
    | cons b u => cases h
  | cons a t ih =>
    intro l2 h
    cases l2 with
    | nil => cases h
    | cons b u =>
      have h' : t.length = u.length := by simpa using h
      rw [List.zip_cons_cons]
      have step : flattenPairs ((a, b) :: t.zip u) =
          a :: b :: flattenPairs (t.zip u) := rfl
      rw [step]
      have h1 : (a :: b :: flattenPairs (t.zip u)).Perm (a :: b :: (t ++ u)) :=
        List.Perm.cons a (List.Perm.cons b (ih u h'))
      have h2 : (a :: b :: (t ++ u)).Perm (a :: (t ++ b :: u)) :=
        List.Perm.cons a List.perm_middle.symm
      exact h1.trans h2

/-- Swapping home and away in every pairing permutes nothing. -/
theorem flattenPairs_map_swap {α : Type} (ps : List (α × α)) :
    (flattenPairs (ps.map swapPair)).Perm (flattenPairs ps) := by
  induction ps with
  | nil => exact List.Perm.refl _
  | cons p t ih =>
    obtain ⟨a, b⟩ := p
    have l1 : flattenPairs (((a, b) :: t).map swapPair) =
        b :: a :: flattenPairs (t.map swapPair) := rfl
    have l2 : flattenPairs ((a, b) :: t) = a :: b :: flattenPairs t := rfl
    rw [l1, l2]
    have h1 : (b :: a :: flattenPairs (t.map swapPair)).Perm
        (b :: a :: flattenPairs t) :=
      List.Perm.cons b (List.Perm.cons a ih)
    exact h1.trans (List.Perm.swap a b (flattenPairs t))

/-- Conditionally swapping the head pairing permutes nothing. -/
theorem flattenPairs_condSwapHead {α : Type} (b : Bool) (ps : List (α × α)) :
    (flattenPairs (condSwapHead b ps)).Perm (flattenPairs ps) := by
  cases ps with
  | nil => exact List.Perm.refl _
  | cons p t =>
    cases b with
    | false => exact List.Perm.refl _
    | true =>
      obtain ⟨x, y⟩ := p
      have l1 : flattenPairs (condSwapHead true ((x, y) :: t)) =
          y :: x :: flattenPairs t := rfl
      have l2 : flattenPairs ((x, y) :: t) = x :: y :: flattenPairs t := rfl
      rw [l1, l2]
      exact List.Perm.swap x y (flattenPairs t)

/-- In a list with distinct entries, a member occurs exactly once. -/
theorem count_eq_one_of_nodup_mem {α : Type} [BEq α] [LawfulBEq α]
    (l : List α) (c : α) (hnd : l.Nodup) (hm : c ∈ l) : l.count c = 1 := by
  induction l with
  | nil => cases hm
  | cons a t ih =>
    have hn := List.nodup_cons.mp hnd
    rcases List.mem_cons.mp hm with rfl | hmt
    · have ht : t.count c = 0 := List.count_eq_zero.mpr hn.1
      simp [List.count_cons, ht]
    · have hne : (a == c) = false := by
        simp only [beq_eq_false_iff_ne, ne_eq]
        intro hac
        exact hn.1 (hac ▸ hmt)
      simp [List.count_cons, hne, ih hn.2 hmt]

/-- The rotation step of a round is a permutation of `rest`. -/
theorem rrRotated_perm {α : Type} (rest : List α) (rot : Nat) :
    (if rot == 0 then rest
     else rest.drop (rest.length - rot) ++
       rest.take (rest.length - rot)).Perm rest := by
  split
  · exact List.Perm.refl _
  · have h1 : (rest.drop (rest.length - rot) ++
        rest.take (rest.length - rot)).Perm
        (rest.take (rest.length - rot) ++ rest.drop (rest.length - rot)) :=
      List.perm_append_comm
    rw [List.take_append_drop] at h1
    exact h1

/-- One round over 24 clubs yields exactly 12 pairings. -/
theorem rrRound_length {α : Type} (fixed : α) (rest : List α) (i : Nat)
    (h : rest.length = 23) : (rrRound fixed rest i).length = 12 := by
  unfold rrRound
  dsimp only
  rw [condSwapHead_length, List.length_zip, List.length_take,
    List.length_reverse, List.length_drop]
  have hrot : (if i % rest.length == 0 then rest
      else rest.drop (rest.length - i % rest.length) ++
        rest.take (rest.length - i % rest.length)).length = rest.length := by
    split
    · rfl
    · rw [List.length_append, List.length_drop, List.length_take]
      omega
  rw [List.length_cons, hrot, h]
  decide

/-- The clubs of one round are a permutation of all 24 clubs. -/
theorem rrRound_flatten {α : Type} (fixed : α) (rest : List α) (i : Nat)
    (h : rest.length = 23) :
    (flattenPairs (rrRound fixed rest i)).Perm (fixed :: rest) := by
  unfold rrRound
  dsimp only
  set rotated := (if i % rest.length == 0 then rest
    else rest.drop (rest.length - i % rest.length) ++
      rest.take (rest.length - i % rest.length)) with hrotated
  have hrot : rotated.length = rest.length := by
    rw [hrotated]
    split
    · rfl
    · rw [List.length_append, List.length_drop, List.length_take]
      omega
  set all := fixed :: rotated with hall
  have hlena : all.length = 24 := by
    rw [hall, List.length_cons, hrot, h]
  have hlen : (all.take ((rest.length + 1) / 2)).length =
      ((all.drop ((rest.length + 1) / 2)).reverse).length := by
    rw [List.length_take, List.length_reverse, List.length_drop, hlena, h]
    decide
  refine (flattenPairs_condSwapHead _ _).trans
    ((flattenPairs_zip _ _ hlen).trans ?_)
  have p3 := List.Perm.append_left (all.take ((rest.length + 1) / 2))
    (List.reverse_perm (all.drop ((rest.length + 1) / 2)))
  have p5 : all.take ((rest.length + 1) / 2) ++
      all.drop ((rest.length + 1) / 2) = all :=
    List.take_append_drop _ all
  have p6 : rotated.Perm rest := by
    rw [hrotated]
    exact rrRotated_perm rest (i % rest.length)
  refine p3.trans ?_
  rw [p5, hall]
  exact List.Perm.cons fixed p6

-- ── C7 ─────────────────────────────────────────────────────────────────

/-- C7: for every list of 24 distinct club identifiers and every matchday
`m` in 1..46, `getRoundRobinPairings` yields exactly 12 pairings in which
each of the 24 clubs appears exactly once, and for `m` in 24..46 the
pairings equal those of matchday `m - 23` with home and away swapped. -/
theorem getRoundRobinPairings_spec {α : Type} [BEq α] [LawfulBEq α]
    (clubIds : List α) (m : Nat)
    (h24 : clubIds.length = 24) (hnd : clubIds.Nodup)
    (hm1 : 1 ≤ m) (hm46 : m ≤ 46) :
    (getRoundRobinPairings clubIds m).length = 12 ∧
    (∀ c ∈ clubIds,
      (flattenPairs (getRoundRobinPairings clubIds m)).count c = 1) ∧
    (24 ≤ m → getRoundRobinPairings clubIds m =
      (getRoundRobinPairings clubIds (m - 23)).map swapPair) := by
  cases clubIds with
  | nil => cases h24
  | cons fixed rest =>
    have hlen : rest.length = 23 := by simpa using h24
    have hg : ∀ k, getRoundRobinPairings (fixed :: rest) k =
        if k > rest.length then
          (rrRound fixed rest (k - rest.length - 1)).map swapPair
        else rrRound fixed rest (k - 1) := fun k => rfl
    have hperm : (flattenPairs
        (getRoundRobinPairings (fixed :: rest) m)).Perm (fixed :: rest) := by
      rw [hg]
      split
      · exact (flattenPairs_map_swap _).trans
          (rrRound_flatten fixed rest _ hlen)
      · exact rrRound_flatten fixed rest _ hlen
    refine ⟨?_, ?_, ?_⟩
    · rw [hg]
      split
      · rw [List.length_map]
        exact rrRound_length fixed rest _ hlen
      · exact rrRound_length fixed rest _ hlen
    · intro c hc
      have hcnt : (flattenPairs
          (getRoundRobinPairings (fixed :: rest) m)).count c =
          (fixed :: rest).count c :=
        hperm.countP_eq (fun x => x == c)
      rw [hcnt]
      exact count_eq_one_of_nodup_mem _ c hnd hc
    · intro hm24
      have e1 : getRoundRobinPairings (fixed :: rest) m =
          (rrRound fixed rest (m - rest.length - 1)).map swapPair := by
        rw [hg, if_pos (by omega : m > rest.length)]
      have e2 : getRoundRobinPairings (fixed :: rest) (m - 23) =
          rrRound fixed rest (m - 23 - 1) := by
        rw [hg, if_neg (by omega : ¬ m - 23 > rest.length)]
      rw [e1, e2, hlen]

/-- Witness for C7 over the 24 club ids 0..23 at matchday 30 (mirror of
matchday 7). -/
theorem getRoundRobinPairings_spec_witness :
    (getRoundRobinPairings (List.range 24) 30).length = 12 ∧
    (∀ c ∈ List.range 24,
      (flattenPairs (getRoundRobinPairings (List.range 24) 30)).count c = 1) ∧
    (24 ≤ 30 → getRoundRobinPairings (List.range 24) 30 =
      (getRoundRobinPairings (List.range 24) (30 - 23)).map swapPair) :=
  getRoundRobinPairings_spec (List.range 24) 30 (by decide) (by decide)
    (by decide) (by decide)
